import Mathlib

/-!
Verification development for the shaun-rs SQL front-end (lexer, Pratt parser,
logical planner).  Every definition is a shallow embedding of the homonymous
item in the Rust sources (src/parser/lexer.rs, src/parser/operator.rs,
src/parser/mod.rs, src/parser/expression.rs, src/parser/stmt.rs,
src/planner/*.rs, src/catalog/*.rs, src/types/*.rs), with these global
modelling conventions:

* Rust strings are byte strings; the lexer reads them byte by byte
  (origin_str.as_bytes()[i] as char).  We model the buffer as a List Char
  in which every element stands for one byte.
* Machine integers (i64, u64, usize, i32) are modelled as Int / Nat with the
  explicit range checks of the corresponding Rust conversions.
* f64 literal values are never computed with in this code base (they are only
  stored and compared structurally), so a float literal is represented by the
  source text of the number token; the validity of the text under the Rust
  f64 parser is modelled separately (rustParseF64) for the number alphabet
  the lexer can produce.
* fmt_err! produces "[file:line:col] msg"; the source-location prefix is
  dropped and only the message body is modelled.
* A Rust panic from todo!() / unimplemented!() is modelled by the
  distinguished outcome RtErr.panicTodo; the panic of a string range index
  &s[a..b] whose bounds violate the slice contract (a char-boundary or
  bounds violation) by RtErr.panicSlice; Rust Result::Err(e) by
  RtErr.err e; and exhaustion of the explicit recursion fuel of the embedded
  parser by RtErr.fuel (the fuel is an embedding artefact; all concrete
  theorems run with ample fuel).
* src/parser/keyword.rs is not part of the provided sources (only its users
  are); the Keyword enumeration and find_keyword are modelled from the spec,
  see their doc comments.
-/

/- ================================================================
   Error type (src/error.rs).  Messages are modelled without the
   fmt_err! "[file:line:col]" prefix.
   ================================================================ -/

inductive Error where
  | Parse (msg : String)
  | Store (msg : String)
  | Internal (msg : String)
  | Conf (msg : String)
  | Other (msg : String)
  | Function (msg : String)
  | Cast (msg : String)
  | Plan (msg : String)
deriving DecidableEq, Repr

/-- Runtime outcome of an embedded Rust function: an Err(e) value, a
todo!()/unimplemented!() panic, a string-slice index panic (&s[a..b] with
bounds off the slice contract), or exhaustion of the embedding's recursion
fuel. -/
inductive RtErr where
  | err (e : Error)
  | panicTodo
  | panicSlice
  | fuel
deriving DecidableEq, Repr

/- ================================================================
   Keyword (src/parser/keyword.rs is absent from the sources).
   ================================================================ -/

/-- Modelled from the spec: the closed Keyword enumeration of
src/parser/keyword.rs, which is missing from the provided sources.  The
variant list is the union of the spec (§4.2 keyword table) and every
Keyword::X occurrence in the provided source files; UserIdent is the
sentinel "user identifier" variant named by the spec and used by lexer.rs. -/
inductive Keyword where
  | Add | Alter | And | As | Asc | Begin | Bool | Boolean | By | Char
  | Column | Commit | Committed | Create | Databases | Default | Delete
  | Desc | Describe | Double | Drop | Explain | False | Float | Float32
  | Float64 | From | Global | Group | Having | Index | Infinity | Inner
  | Insert | Int | Int16 | Int32 | Int64 | Int8 | Integer | Into | Isolation
  | Join | Key | Left | Level | Like | Limit | Modify | Not | Null | Of
  | Offset | On | Only | Or | Order | Outer | Primary | Read | References
  | Rename | Repeatable | Right | Rollback | Select | Serializable | Session
  | Set | Show | String | System | Table | Tables | Text | Time | To
  | Transaction | True | Uint16 | Uint32 | Uint64 | Uint8 | Uncommitted
  | Unique | Update | UserIdent | Values | VarChar | Where | Write
deriving DecidableEq, Repr

/-- ASCII lower-casing, character by character (the identifier alphabet is
ASCII, so this coincides with Rust to_lowercase there). -/
def strToLower (s : String) : String :=
  String.mk (s.data.map Char.toLower)

/-- ASCII upper-casing, character by character (the function names compared
by has_aggregation are ASCII, so this coincides with Rust to_uppercase). -/
def strToUpper (s : String) : String :=
  String.mk (s.data.map Char.toUpper)

/-- Modelled from the spec: find_keyword of the missing
src/parser/keyword.rs.  Case-insensitive reverse lookup from an identifier
run to its keyword; identifiers that are no keyword map to the sentinel
Keyword.UserIdent (spec §3 "Keyword" and §4.2). -/
def find_keyword (s : String) : Keyword :=
  match strToLower s with
  | "add" => .Add | "alter" => .Alter | "and" => .And | "as" => .As
  | "asc" => .Asc | "begin" => .Begin | "bool" => .Bool
  | "boolean" => .Boolean | "by" => .By | "char" => .Char
  | "column" => .Column | "commit" => .Commit | "committed" => .Committed
  | "create" => .Create | "databases" => .Databases | "default" => .Default
  | "delete" => .Delete | "desc" => .Desc | "describe" => .Describe
  | "double" => .Double | "drop" => .Drop | "explain" => .Explain
  | "false" => .False | "float" => .Float | "float32" => .Float32
  | "float64" => .Float64 | "from" => .From | "global" => .Global
  | "group" => .Group | "having" => .Having | "index" => .Index
  | "infinity" => .Infinity | "inner" => .Inner | "insert" => .Insert
  | "int" => .Int | "int16" => .Int16 | "int32" => .Int32
  | "int64" => .Int64 | "int8" => .Int8 | "integer" => .Integer
  | "into" => .Into | "isolation" => .Isolation | "join" => .Join
  | "key" => .Key | "left" => .Left | "level" => .Level | "like" => .Like
  | "limit" => .Limit | "modify" => .Modify | "not" => .Not
  | "null" => .Null | "of" => .Of | "offset" => .Offset | "on" => .On
  | "only" => .Only | "or" => .Or | "order" => .Order | "outer" => .Outer
  | "primary" => .Primary | "read" => .Read | "references" => .References
  | "rename" => .Rename | "repeatable" => .Repeatable | "right" => .Right
  | "rollback" => .Rollback | "select" => .Select
  | "serializable" => .Serializable | "session" => .Session | "set" => .Set
  | "show" => .Show | "string" => .String | "system" => .System
  | "table" => .Table | "tables" => .Tables | "text" => .Text
  | "time" => .Time | "to" => .To | "transaction" => .Transaction
  | "true" => .True | "uint16" => .Uint16 | "uint32" => .Uint32
  | "uint64" => .Uint64 | "uint8" => .Uint8 | "uncommitted" => .Uncommitted
  | "unique" => .Unique | "update" => .Update | "values" => .Values
  | "varchar" => .VarChar | "where" => .Where | "write" => .Write
  | _ => .UserIdent

/- ================================================================
   Token (src/parser/token.rs)
   ================================================================ -/

inductive Token where
  | Number (text : String)
  | String (text : String)
  | Ident (text : String)
  | KeyWord (k : Keyword)
  | Period
  | Equal
  | GreaterThan
  | GreaterThanOrEqual
  | LessThan
  | LessThanOrEqual
  | Add
  | Minus
  | Asterisk
  | Slash
  | Caret
  | Percent
  | Exclamation
  | NotEqual
  | Question
  | LeftParen
  | RightParen
  | Comma
  | Semicolon
  | Eof
deriving DecidableEq, Repr

/- ================================================================
   Lexer (src/parser/lexer.rs)

   The Rust Lexer state is (origin_str, cur_read_char, pos, read_pos); after
   construction it always satisfies read_pos = pos + 1 and
   cur_read_char = byte at pos (STOP_CHAR when pos is past the end), so the
   state is represented by the pair (origin, pos) and cur_read_char / a
   read_char call become charAt / pos + 1.
   ================================================================ -/

def STOP_CHAR : Char := Char.ofNat 0

def squoteChar : Char := Char.ofNat 39

def dquoteChar : Char := Char.ofNat 34

structure Lexer where
  origin : List Char
  pos : Nat
deriving DecidableEq, Repr

/-- The character the Rust lexer sees at position pos: the byte there, or
STOP_CHAR past the end of the buffer. -/
def charAt (s : List Char) (pos : Nat) : Char :=
  match s.get? pos with
  | some c => c
  | none => STOP_CHAR

/-- Recursion worker for scanEnd, structural on the number of positions
left before the end of the buffer (so that it reduces definitionally). -/
def scanEndAux (s : List Char) (p : Char → Bool) :
    Nat → Nat → Nat
  | 0, pos => pos
  | left + 1, pos =>
    if h : pos < s.length then
      if p (s.get ⟨pos, h⟩) then scanEndAux s p left (pos + 1) else pos
    else pos

/-- Smallest position at or after pos whose character fails p (or the end of
the buffer).  This is the shape of every scanning loop of the Rust lexer
(skip_space, read_string, read_identifier, read_number); each of those loops
instantiates p with a predicate that rejects STOP_CHAR, so stopping at the
end of the buffer agrees with the Rust loops. -/
def scanEnd (s : List Char) (p : Char → Bool) (pos : Nat) : Nat :=
  scanEndAux s p (s.length - pos) pos

def is_letter (ch : Char) : Bool :=
  (ch.isUpper || ch.isLower) || ch = '_'

/-- Rust char::is_numeric, restricted to the characters a byte can denote:
the ASCII digits plus the six Latin-1 numeric characters (superscripts one,
two, three and the vulgar fractions), which are in Unicode category No. -/
def is_digit (ch : Char) : Bool :=
  ch.isDigit || ch = Char.ofNat 0xB2 || ch = Char.ofNat 0xB3 ||
    ch = Char.ofNat 0xB9 || ch = Char.ofNat 0xBC || ch = Char.ofNat 0xBD ||
    ch = Char.ofNat 0xBE

def isSpaceChar (ch : Char) : Bool :=
  ch = ' ' || ch = Char.ofNat 9 || ch = Char.ofNat 10 || ch = Char.ofNat 13

def Lexer.skip_space (l : Lexer) : Lexer :=
  { l with pos := scanEnd l.origin isSpaceChar l.pos }

/-- The byte-list content of the slice s[start..stop] (total; the panic of
the Rust slice expression is checked separately by rustSliceStr). -/
def sliceStr (s : List Char) (start stop : Nat) : String :=
  String.mk ((s.drop start).take (stop - start))

/-- Rust str::is_char_boundary on the byte buffer: position 0, the end of
the buffer, and any position whose byte is not a UTF-8 continuation byte
(0x80..0xBF). -/
def isCharBoundary (s : List Char) (i : Nat) : Bool :=
  i == 0 || i == s.length ||
    !(decide (0x80 ≤ (charAt s i).toNat) && decide ((charAt s i).toNat < 0xC0))

/-- The Rust string range index &s[a..b]: the slice content when a ≤ b ≤ len
and both bounds are char boundaries, a panic otherwise (this is where
read_number fails on a number run that starts inside a multi-byte
character). -/
def rustSliceStr (s : List Char) (start stop : Nat) :
    Except RtErr String :=
  if start ≤ stop && stop ≤ s.length &&
      isCharBoundary s start && isCharBoundary s stop then
    .ok (sliceStr s start stop)
  else .error .panicSlice

/-- read_string: pre_pos = pos + 1; advance until a quote (either kind) or
STOP_CHAR; the string content is the slice between.  Returns the content and
the position of the terminating character. -/
def Lexer.read_string_at (s : List Char) (pos : Nat) :
    Except RtErr (String × Nat) :=
  let stop := scanEnd s
    (fun c => !(c = squoteChar || c = dquoteChar || c = STOP_CHAR)) (pos + 1)
  match rustSliceStr s (pos + 1) stop with
  | .error e => .error e
  | .ok str => .ok (str, stop)

/-- read_identifier: the run of letter/digit characters starting at pos. -/
def Lexer.read_identifier_at (s : List Char) (pos : Nat) :
    Except RtErr (String × Nat) :=
  let stop := scanEnd s (fun c => is_letter c || is_digit c) pos
  match rustSliceStr s pos stop with
  | .error e => .error e
  | .ok str => .ok (str, stop)

/-- read_number: the run of digit or dot characters starting at pos, sliced
by &origin_str[pre_pos..pos]; the slice panics when the run starts on a
UTF-8 continuation byte that char::is_numeric accepts (0xB2 0xB3 0xB9 0xBC
0xBD 0xBE), e.g. on the input bytes of a superscript-two character. -/
def Lexer.read_number_at (s : List Char) (pos : Nat) :
    Except RtErr (String × Nat) :=
  let stop := scanEnd s (fun c => is_digit c || c = '.') pos
  match rustSliceStr s pos stop with
  | .error e => .error e
  | .ok str => .ok (str, stop)

/-- next_token of src/parser/lexer.rs.  The scanning itself is total, but
the token content of string, identifier and number tokens comes from a Rust
string slice whose index can panic (see rustSliceStr), so the result is an
Except. -/
def Lexer.next_token (l : Lexer) : Except RtErr (Token × Lexer) :=
  let l := l.skip_space
  let s := l.origin
  let pos := l.pos
  let c := charAt s pos
  let peek := charAt s (pos + 1)
  if c = '=' then .ok (.Equal, ⟨s, pos + 1⟩)
  else if c = '.' then .ok (.Period, ⟨s, pos + 1⟩)
  else if c = '>' then
    if peek = '=' then .ok (.GreaterThanOrEqual, ⟨s, pos + 2⟩)
    else .ok (.GreaterThan, ⟨s, pos + 1⟩)
  else if c = '<' then
    if peek = '=' then .ok (.LessThanOrEqual, ⟨s, pos + 2⟩)
    else .ok (.LessThan, ⟨s, pos + 1⟩)
  else if c = '+' then .ok (.Add, ⟨s, pos + 1⟩)
  else if c = '-' then .ok (.Minus, ⟨s, pos + 1⟩)
  else if c = '*' then .ok (.Asterisk, ⟨s, pos + 1⟩)
  else if c = '/' then .ok (.Slash, ⟨s, pos + 1⟩)
  else if c = Char.ofNat 94 then .ok (.Caret, ⟨s, pos + 1⟩)
  else if c = '%' then .ok (.Percent, ⟨s, pos + 1⟩)
  else if c = '!' then
    if peek = '=' then .ok (.NotEqual, ⟨s, pos + 2⟩)
    else .ok (.Exclamation, ⟨s, pos + 1⟩)
  else if c = '?' then .ok (.Question, ⟨s, pos + 1⟩)
  else if c = '(' then .ok (.LeftParen, ⟨s, pos + 1⟩)
  else if c = ')' then .ok (.RightParen, ⟨s, pos + 1⟩)
  else if c = ',' then .ok (.Comma, ⟨s, pos + 1⟩)
  else if c = ';' then .ok (.Semicolon, ⟨s, pos + 1⟩)
  else if c = STOP_CHAR then .ok (.Eof, ⟨s, pos + 1⟩)
  else if c = squoteChar || c = dquoteChar then
    match Lexer.read_string_at s pos with
    | .error e => .error e
    | .ok (str, stop) => .ok (.String str, ⟨s, stop + 1⟩)
  else if is_letter c then
    match Lexer.read_identifier_at s pos with
    | .error e => .error e
    | .ok (ident, stop) =>
      let kw := find_keyword ident
      .ok (if kw = Keyword.UserIdent then .Ident ident else .KeyWord kw,
        ⟨s, stop⟩)
  else if is_digit c then
    match Lexer.read_number_at s pos with
    | .error e => .error e
    | .ok (num, stop) => .ok (.Number num, ⟨s, stop⟩)
  else .ok (.KeyWord Keyword.UserIdent, ⟨s, pos + 1⟩)

def Lexer.new_lexer (s : String) : Lexer := ⟨s.data, 0⟩

/-- Run the lexer to a token list, stopping at Eof and propagating a slice
panic (fuel-bounded; the lexer itself is infinite, emitting Eof forever, so
the embedded parser treats a missing list tail as Eof). -/
def lexTokens (fuel : Nat) (l : Lexer) : Except RtErr (List Token) :=
  match fuel with
  | 0 => .ok []
  | fuel + 1 =>
    match l.next_token with
    | .error e => .error e
    | .ok (t, l') =>
      if t = Token.Eof then .ok []
      else
        match lexTokens fuel l' with
        | .error e => .error e
        | .ok ts => .ok (t :: ts)

/-- Tokenize a whole SQL string (ample fuel: each next_token call advances
the position by at least one).  The Rust parser pulls tokens on demand;
tokenizing up front agrees with it on every input whose full token stream
lexes without a slice panic, which covers every SQL input in this file. -/
def tokenize (s : String) : Except RtErr (List Token) :=
  lexTokens (s.length + 1) (Lexer.new_lexer s)

/-- The token list of an input on which the lexer does not panic ([] on a
panicking input).  Every input this is applied to below is ASCII, where the
lexer is panic-free and this is exact. -/
def tokenizeStr (s : String) : List Token :=
  match tokenize s with
  | .ok ts => ts
  | .error _ => []

/- ================================================================
   Rust numeric string conversions, restricted to the number-token
   alphabet the lexer can emit (no sign characters occur in tokens).
   ================================================================ -/

/-- The numeric value of a nonempty all-ASCII-digit string (Rust integer
from_str on a signless input), none otherwise. -/
def digitsToNat : List Char → Option Nat
  | [] => none
  | cs =>
    if cs.all Char.isDigit then
      some (cs.foldl (fun acc c => acc * 10 + (c.toNat - 48)) 0)
    else none

def I64_MAX : Nat := 9223372036854775807

def U64_MAX : Nat := 18446744073709551615

/-- Rust str::parse::<i64> on a number token (digits and dots only, no
sign): the value when the text is all digits and fits in i64. -/
def rustParseI64 (s : String) : Option Int :=
  match digitsToNat s.data with
  | some n => if n ≤ I64_MAX then some (Int.ofNat n) else none
  | none => none

/-- Rust str::parse::<u64> on a number token. -/
def rustParseU64 (s : String) : Option Nat :=
  match digitsToNat s.data with
  | some n => if n ≤ U64_MAX then some n else none
  | none => none

/-- Rust str::parse::<usize> on a number token (64-bit platform). -/
def rustParseUsize (s : String) : Option Nat := rustParseU64 s

/-- Rust str::parse::<f64> restricted to the lexer's number alphabet
(ASCII digits, dots, the Latin-1 numeric characters): it succeeds exactly
when the text is made of ASCII digits and at most one dot and contains at
least one digit.  Because no claim computes with float values, a parsed f64
is represented by its source text. -/
def rustParseF64 (s : String) : Option String :=
  if s.data.all (fun c => c.isDigit || c = '.') &&
      s.data.count '.' ≤ 1 && s.data.any Char.isDigit then
    some s
  else none

/- ================================================================
   AST (src/parser/expression.rs, src/parser/operation.rs,
   src/parser/column.rs, src/parser/data_type.rs, src/parser/stmt.rs)
   ================================================================ -/

inductive Literal where
  | All
  | Null
  | Bool (b : Bool)
  | Int (i : Int)
  | Float (text : String)
  | String (s : String)
deriving DecidableEq, Repr

mutual
inductive Expression where
  | Field (table : Option String) (column : String)
  | Column (idx : Nat)
  | Literal (l : Literal)
  | Function (name : String) (args : List Expression)
  | Operation (op : Operation)

inductive Operation where
  | And (l r : Expression)
  | Not (e : Expression)
  | Or (l r : Expression)
  | NotEqual (l r : Expression)
  | Equal (l r : Expression)
  | GreaterThan (l r : Expression)
  | GreaterThanOrEqual (l r : Expression)
  | LessThan (l r : Expression)
  | LessThanOrEqual (l r : Expression)
  | IsNull (e : Expression)
  | Add (l r : Expression)
  | Subtract (l r : Expression)
  | Multiply (l r : Expression)
  | Divide (l r : Expression)
  | Assert (e : Expression)
  | Like (l r : Expression)
  | Negate (e : Expression)
  | BitWiseNot (e : Expression)
  | Modulo (l r : Expression)
end

inductive DataType where
  | Char
  | Bool
  | Int8
  | Int16
  | Int32
  | Int64
  | Uint8
  | Uint16
  | Uint32
  | Uint64
  | Float32
  | Float64
  | Varchar (n : Nat)
  | String
deriving DecidableEq, Repr

structure Column where
  name : String
  data_type : DataType
  primary_key : Bool
  nullable : Option Bool
  default : Option Expression
  unique : Bool
  index : Bool
  references : Option String

inductive JoinType where
  | Left
  | Right
  | Outer
  | Inner
deriving DecidableEq, Repr

inductive FromItem where
  | Table (name : String) (tableAlias : Option String)
  | Join (left right : FromItem) (join_type : JoinType)
      (predicate : Option Expression)

inductive OrderByType where
  | Asc
  | Desc
deriving DecidableEq, Repr

structure SelectStmt where
  selects : List (Expression × Option String)
  froms : Option (List FromItem)
  wheres : Option Expression
  group_by : Option (List Expression)
  having : Option Expression
  order : Option (List (Expression × OrderByType))
  offset : Option Expression
  limit : Option Expression

structure BeginStmt where
  is_readonly : Bool
  version : Option Nat
deriving DecidableEq, Repr

structure CreateTableStmt where
  columns : List Column
  table_name : String

structure DropTableStmt where
  table_name : String
deriving DecidableEq, Repr

structure DeleteTableStmt where
  table_name : String
  whereExpr : Option Expression

structure InsertStmt where
  table_name : String
  columns : Option (List String)
  values : List (List (Option Expression))

/-- UpdateStmt.set is a BTreeMap<String, Expression> in the source; it is
modelled as the association list in insertion order (no claim depends on the
map's iteration order, only on duplicate-key detection). -/
structure UpdateStmt where
  table_name : String
  set : List (String × Expression)
  wheres : Option Expression

inductive AlterType where
  | AddColumn (c : Column)
  | DropColumn (name : String)
  | ModifyColumn (c : Column)
  | RenameColumn (oldName newName : String)
  | RenameTable (newName : String)
  | AddIndex (name : Option String) (columns : List String)
  | RemoveIndex (name : String)

structure AlterStmt where
  alter_type : AlterType
  table_name : String

inductive TransactionIsolationLevel where
  | ReadUncommitted
  | ReadCommitted
  | RepeatableRead
  | Serializable
deriving DecidableEq, Repr

structure SetValue where
  variable_name : String
  value : Expression

inductive SetVariableType where
  | Transaction (lvl : TransactionIsolationLevel)
  | Value (v : SetValue)

structure SetStmt where
  set_value : SetVariableType
  is_session : Bool

structure CreateIndexStmt where
  index_name : String
  is_unique : Bool
  table_name : String
  columns : List String
deriving DecidableEq, Repr

inductive Statement where
  | Begin (s : BeginStmt)
  | Commit
  | Rollback
  | Explain (statement : Statement)
  | CreateTable (s : CreateTableStmt)
  | DropTable (s : DropTableStmt)
  | Delete (s : DeleteTableStmt)
  | Insert (s : InsertStmt)
  | Update (s : UpdateStmt)
  | Select (s : SelectStmt)
  | Alter (s : AlterStmt)
  | CreateIndex (s : CreateIndexStmt)
  | ShowDatabase
  | ShowTables
  | Set (s : SetStmt)
  | DescribeTable (name : String)

/- ================================================================
   Operator precedence (src/parser/operator.rs).  The Rust Precedence
   enum derives Ord by declaration order; the constructor PrecPrefix
   mirrors the source's unary-operator precedence variant (renamed
   for this file).
   ================================================================ -/

inductive Precedence where
  | Lowest
  | Equals
  | LessGreater
  | Sum
  | Product
  | PrecPrefix
  | Call
deriving DecidableEq, Repr

/-- Rank realizing the derived Ord of the Rust Precedence enum
(declaration order). -/
def Precedence.rank : Precedence → Nat
  | .Lowest => 0
  | .Equals => 1
  | .LessGreater => 2
  | .Sum => 3
  | .Product => 4
  | .PrecPrefix => 5
  | .Call => 6

def Precedence.lt (a b : Precedence) : Bool := a.rank < b.rank

def is_prefix_oper : Token → Bool
  | .Exclamation => true
  | .Minus => true
  | .Add => true
  | .Number _ => true
  | .LeftParen => true
  | .Ident _ => true
  | .KeyWord .True => true
  | .KeyWord .False => true
  | _ => false

def is_infix_oper : Token → Bool
  | .Add => true
  | .Equal => true
  | .GreaterThan => true
  | .GreaterThanOrEqual => true
  | .LessThan => true
  | .LessThanOrEqual => true
  | .Minus => true
  | .NotEqual => true
  | .Percent => true
  | .Slash => true
  | .Asterisk => true
  | .Caret => true
  | .KeyWord .And => true
  | .KeyWord .Like => true
  | .KeyWord .Or => true
  | .LeftParen => true
  | _ => false

def match_precedence : Token → Precedence
  | .Equal => .Equals
  | .NotEqual => .Equals
  | .LessThan => .LessGreater
  | .LessThanOrEqual => .LessGreater
  | .GreaterThan => .LessGreater
  | .GreaterThanOrEqual => .LessGreater
  | .KeyWord k =>
    match k with
    | .And => .Sum
    | .Or => .Sum
    | .Not => .Sum
    | _ => .Lowest
  | .Add => .Sum
  | .Minus => .Sum
  | .Slash => .Product
  | .Asterisk => .Product
  | .LeftParen => .Call
  | _ => .Lowest

/- ================================================================
   Parser state (src/parser/mod.rs struct Parser).  The Rust parser
   pulls tokens from the lexer on demand; since the lexer emits Eof
   forever past the end, the remaining token stream is modelled as a
   list whose missing tail stands for the infinite Eof suffix.
   ================================================================ -/

structure PState where
  pre_token : Token
  peek_token : Token
  rest : List Token
deriving DecidableEq, Repr

/-- new_parser: pulls two tokens, leaving pre = first, peek = second. -/
def mkPState (toks : List Token) : PState :=
  ⟨toks.headD .Eof, (toks.drop 1).headD .Eof, toks.drop 2⟩

def PState.next_token (st : PState) : Token × PState :=
  let pre := st.peek_token
  (pre, ⟨pre, st.rest.headD Token.Eof, st.rest.tail⟩)

def PState.next_if_token (st : PState) (t : Token) : Bool × PState :=
  let (tk, st') := st.next_token
  (tk = t, st')

def PState.next_if_keyword (st : PState) (k : Keyword) : Bool × PState :=
  st.next_if_token (.KeyWord k)

def PState.peek_if_token (st : PState) (t : Token) : Bool × PState :=
  if st.peek_token = t then (true, (st.next_token).2) else (false, st)

/-- Parse-error messages that interpolate the Display form of a token or
keyword are abbreviated to their fixed prefix (the Display impl of Keyword
lives in the missing keyword.rs); no claim inspects Parse message text. -/
def PState.next_expected_keyword (st : PState) (k : Keyword) :
    Except RtErr PState :=
  let (t, st') := st.next_token
  if t = .KeyWord k then .ok st'
  else .error (.err (.Parse "unexpected keyword"))

def PState.next_expected_token (st : PState) (t : Token) :
    Except RtErr PState :=
  let (tk, st') := st.next_token
  if tk = t then .ok st'
  else .error (.err (.Parse "unexpected token"))

def PState.next_ident (st : PState) : Except RtErr (String × PState) :=
  match st.next_token with
  | (.Ident i, st') => .ok (i, st')
  | (_, _) => .error (.err (.Parse "expected: Token::Ident"))

/-- Rust .map_err(|_| Error::Parse(msg)): replaces an Err value; a modelled
panic or fuel exhaustion is not an Err value and passes through. -/
def mapParseErr {α : Type} (msg : String) :
    Except RtErr α → Except RtErr α
  | .error (.err _) => .error (.err (.Parse msg))
  | r => r

def perr {α : Type} (msg : String) : Except RtErr α :=
  .error (.err (.Parse msg))

/- ================================================================
   Non-recursive statement parsers (src/parser/mod.rs)
   ================================================================ -/

def parse_transaction_stmt (st : PState) :
    Except RtErr (Statement × PState) :=
  match st.pre_token with
  | .KeyWord .Begin =>
    let (_, st) := st.next_if_keyword .Transaction
    let readStep : Except RtErr (Bool × PState) :=
      let (isRead, st) := st.next_if_token (.KeyWord .Read)
      if isRead then
        match st.next_token with
        | (.KeyWord .Only, st) => .ok (true, st)
        | (.KeyWord .Write, st) => .ok (false, st)
        | (_, _) => perr "unexpected token"
      else .ok (false, st)
    match readStep with
    | .error e => .error e
    | .ok (is_readonly, st) =>
      let (isAs, st) := st.next_if_keyword .As
      if isAs then
        match st.next_expected_keyword .Of with
        | .error e => .error e
        | .ok st =>
          match st.next_expected_keyword .System with
          | .error e => .error e
          | .ok st =>
            match st.next_expected_keyword .Time with
            | .error e => .error e
            | .ok st =>
              match st.next_token with
              | (.Number n, st) =>
                .ok (.Begin ⟨is_readonly, rustParseU64 n⟩, st)
              | (_, _) => perr "unexpected token, expected: Number"
      else .ok (.Begin ⟨is_readonly, none⟩, st)
  | .KeyWord .Commit =>
    let (_, st) := st.next_token
    .ok (.Commit, st)
  | .KeyWord .Rollback =>
    let (_, st) := st.next_token
    .ok (.Rollback, st)
  | _ => perr "unexpected token"

def parse_show_stmt (st : PState) : Except RtErr (Statement × PState) :=
  match st.peek_token with
  | .KeyWord .Tables => .ok (.ShowTables, st)
  | .KeyWord .Databases => .ok (.ShowDatabase, st)
  | _ => perr "unexpected token"

def parse_set_transaction (st : PState) :
    Except RtErr (SetVariableType × PState) :=
  let (_, st) := st.next_token
  match st.next_expected_keyword .Isolation with
  | .error e => .error e
  | .ok st =>
    match st.next_expected_keyword .Level with
    | .error e => .error e
    | .ok st =>
      match st.peek_token with
      | .KeyWord .Read =>
        let (_, st) := st.next_token
        match st.peek_token with
        | .KeyWord .Committed =>
          .ok (.Transaction .ReadCommitted, st)
        | .KeyWord .Uncommitted =>
          .ok (.Transaction .ReadUncommitted, st)
        | _ => perr "unexpected token"
      | .KeyWord .Repeatable =>
        let (_, st) := st.next_token
        match st.peek_token with
        | .KeyWord .Read => .ok (.Transaction .RepeatableRead, st)
        | _ => perr "unexpected token"
      | .KeyWord .Serializable => .ok (.Transaction .Serializable, st)
      | _ => perr "unexpected token"

def parse_set_stmt (st : PState) : Except RtErr (Statement × PState) :=
  match st.peek_token with
  | .KeyWord .Session =>
    let (_, st) := st.next_token
    match st.peek_token with
    | .KeyWord .Transaction =>
      match parse_set_transaction st with
      | .error e => .error e
      | .ok (v, st) => .ok (.Set ⟨v, true⟩, st)
    | _ => perr "unexpected token"
  | .KeyWord .Global =>
    let (_, st) := st.next_token
    match st.peek_token with
    | .KeyWord .Transaction =>
      match parse_set_transaction st with
      | .error e => .error e
      | .ok (v, st) => .ok (.Set ⟨v, false⟩, st)
    | _ => perr "unexpected token"
  | .KeyWord .Transaction =>
    match parse_set_transaction st with
    | .error e => .error e
    | .ok (v, st) => .ok (.Set ⟨v, true⟩, st)
  | _ => perr "unexpected token"

def parse_drop_stmt (st : PState) : Except RtErr (Statement × PState) :=
  match st.next_expected_keyword .Table with
  | .error e => .error e
  | .ok st =>
    match st.next_ident with
    | .error e => .error e
    | .ok (table_name, st) => .ok (.DropTable ⟨table_name⟩, st)

def parse_clause_from_table (st : PState) :
    Except RtErr (FromItem × PState) :=
  match st.peek_token with
  | .Ident name =>
    let (_, st) := st.next_token
    match st.peek_token with
    | .KeyWord .As =>
      let (_, st) := st.next_token
      match st.peek_token with
      | .Ident a =>
        let (_, st) := st.next_token
        .ok (.Table name (some a), st)
      | _ => perr "FROM AS is not valid!"
    | .Ident a =>
      let (_, st) := st.next_token
      .ok (.Table name (some a), st)
    | _ => .ok (.Table name none, st)
  | _ => perr "FROM table_name is not valid!"

def parse_clause_from_jointype (st : PState) :
    Except RtErr (Option JoinType × PState) :=
  match st.peek_token with
  | .KeyWord .Outer =>
    let (_, st') := st.next_token
    match st'.peek_token with
    | .KeyWord .Join =>
      let (_, st') := st'.next_token
      .ok (some .Outer, st')
    | _ => .ok (none, st')
  | .KeyWord .Inner =>
    let (_, st') := st.next_token
    match st'.peek_token with
    | .KeyWord .Join =>
      let (_, st') := st'.next_token
      .ok (some .Inner, st')
    | _ => .ok (none, st')
  | .KeyWord .Left =>
    let (_, st') := st.next_token
    match st'.peek_token with
    | .KeyWord .Outer =>
      let (_, st') := st'.next_token
      match st'.peek_token with
      | .KeyWord .Join =>
        let (_, st') := st'.next_token
        .ok (some .Left, st')
      | _ => .ok (none, st')
    | .KeyWord .Join =>
      let (_, st') := st'.next_token
      .ok (some .Left, st')
    | _ => .ok (none, st')
  | .KeyWord .Right =>
    let (_, st') := st.next_token
    match st'.peek_token with
    | .KeyWord .Outer =>
      let (_, st') := st'.next_token
      match st'.peek_token with
      | .KeyWord .Join =>
        let (_, st') := st'.next_token
        .ok (some .Right, st')
      | _ => .ok (none, st')
    | .KeyWord .Join =>
      let (_, st') := st'.next_token
      .ok (some .Right, st')
    | _ => .ok (none, st')
  | .KeyWord .Join =>
    let (_, st') := st.next_token
    .ok (some .Inner, st')
  | _ => .ok (none, st)

def mkColumnBase (name : String) (dt : DataType) : Column :=
  ⟨name, dt, false, none, none, false, false, none⟩

/- ================================================================
   Recursive parser (src/parser/mod.rs).  Every Rust loop is factored
   into a |_loop function; every function of this block takes an
   explicit fuel argument that strictly decreases on each call, which
   is the embedding of the unbounded recursion of the source.
   ================================================================ -/

mutual

def parse_stmt (fuel : Nat) (st : PState) :
    Except RtErr (Statement × PState) :=
  match fuel with
  | 0 => .error .fuel
  | fuel + 1 =>
    if st.pre_token = .Eof then perr "empty token"
    else
      match st.pre_token with
      | .KeyWord .Begin | .KeyWord .Commit | .KeyWord .Rollback =>
        parse_transaction_stmt st
      | .KeyWord .Create => parse_create_stmt fuel st
      | .KeyWord .Drop => parse_drop_stmt st
      | .KeyWord .Delete => parse_delete_stmt fuel st
      | .KeyWord .Insert => parse_insert_stmt fuel st
      | .KeyWord .Select => parse_select_stmt fuel st
      | .KeyWord .Update => parse_update_stmt fuel st
      | .KeyWord .Alter => parse_alter_stmt fuel st
      | .KeyWord .Show => parse_show_stmt st
      | .KeyWord .Explain => parse_explain_stmt fuel st
      | .KeyWord .Describe =>
        match st.peek_token with
        | .Ident i => .ok (.DescribeTable i, st)
        | _ => perr "unexpected token"
      | .KeyWord .Set => parse_set_stmt st
      | _ => perr "unexpected token"

def parse_explain_stmt (fuel : Nat) (st : PState) :
    Except RtErr (Statement × PState) :=
  match fuel with
  | 0 => .error .fuel
  | fuel + 1 =>
    let (_, st) := st.next_token
    match parse_stmt fuel st with
    | .error e => .error e
    | .ok (s, st) => .ok (.Explain s, st)

def parse_delete_stmt (fuel : Nat) (st : PState) :
    Except RtErr (Statement × PState) :=
  match fuel with
  | 0 => .error .fuel
  | fuel + 1 =>
    match st.next_expected_keyword .From with
    | .error e => .error e
    | .ok st =>
      match st.next_ident with
      | .error e => .error e
      | .ok (table_name, st) =>
        let (_, st) := st.next_token
        match parse_clause_where fuel st with
        | .error e => .error e
        | .ok (w, st) => .ok (.Delete ⟨table_name, w⟩, st)

def parse_insert_stmt (fuel : Nat) (st : PState) :
    Except RtErr (Statement × PState) :=
  match fuel with
  | 0 => .error .fuel
  | fuel + 1 =>
    match st.next_expected_keyword .Into with
    | .error e => .error e
    | .ok st =>
      match st.next_ident with
      | .error e => .error e
      | .ok (table_name, st) =>
        let colsStep : Except RtErr (Option (List String) × PState) :=
          if st.peek_token = .LeftParen then
            let (_, st) := st.next_token
            match parse_insert_cols_loop fuel [] st with
            | .error e => .error e
            | .ok (cols, st) => .ok (some cols, st)
          else .ok (none, st)
        match colsStep with
        | .error e => .error e
        | .ok (columns, st) =>
          match st.next_expected_keyword .Values with
          | .error e => .error e
          | .ok st =>
            match parse_insert_values_loop fuel [] st with
            | .error e => .error e
            | .ok (values, st) =>
              .ok (.Insert ⟨table_name, columns, values⟩, st)

def parse_insert_cols_loop (fuel : Nat) (cols : List String)
    (st : PState) : Except RtErr (List String × PState) :=
  match fuel with
  | 0 => .error .fuel
  | fuel + 1 =>
    match st.next_ident with
    | .error e => .error e
    | .ok (c, st) =>
      let cols := cols ++ [c]
      match st.next_token with
      | (.Comma, st) => parse_insert_cols_loop fuel cols st
      | (.RightParen, st) => .ok (cols, st)
      | (_, _) => perr "excepted Comma or RightParen"

def parse_insert_values_loop (fuel : Nat)
    (values : List (List (Option Expression))) (st : PState) :
    Except RtErr (List (List (Option Expression)) × PState) :=
  match fuel with
  | 0 => .error .fuel
  | fuel + 1 =>
    if st.peek_token ≠ Token.LeftParen then perr "except token LeftParen"
    else
      let (_, st) := st.next_token
      match parse_insert_exprs_loop fuel [] st with
      | .error e => .error e
      | .ok (exprs, st) =>
        let values := values ++ [exprs]
        if st.peek_token ≠ Token.Comma then .ok (values, st)
        else parse_insert_values_loop fuel values st

def parse_insert_exprs_loop (fuel : Nat)
    (exprs : List (Option Expression)) (st : PState) :
    Except RtErr (List (Option Expression) × PState) :=
  match fuel with
  | 0 => .error .fuel
  | fuel + 1 =>
    let (_, st) := st.next_token
    match parse_expression fuel .Lowest st with
    | .error e => .error e
    | .ok (e, st) =>
      let exprs := exprs ++ [some e]
      match st.next_token with
      | (.RightParen, st) => .ok (exprs, st)
      | (.Comma, st) => parse_insert_exprs_loop fuel exprs st
      | (_, _) => perr ""

def parse_create_stmt (fuel : Nat) (st : PState) :
    Except RtErr (Statement × PState) :=
  match fuel with
  | 0 => .error .fuel
  | fuel + 1 =>
    match st.peek_token with
    | .KeyWord .Table => parse_create_table_stmt fuel st
    | .KeyWord .Unique | .KeyWord .Index => parse_create_index_stmt fuel st
    | _ => perr "unexpected token"

def parse_create_index_stmt (fuel : Nat) (st : PState) :
    Except RtErr (Statement × PState) :=
  match fuel with
  | 0 => .error .fuel
  | fuel + 1 =>
    match st.peek_token with
    | .KeyWord .Unique =>
      let (_, st) := st.next_token
      match st.peek_token with
      | .KeyWord .Index => parse_create_index_rest fuel true st
      | _ => perr "unexpected token"
    | _ => parse_create_index_rest fuel false st

def parse_create_index_rest (fuel : Nat) (is_unique : Bool)
    (st : PState) : Except RtErr (Statement × PState) :=
  match fuel with
  | 0 => .error .fuel
  | fuel + 1 =>
    let (_, st) := st.next_token
    match st.next_ident with
    | .error e => .error e
    | .ok (index_name, st) =>
      match st.next_expected_keyword .On with
      | .error e => .error e
      | .ok st =>
        match st.next_ident with
        | .error e => .error e
        | .ok (table_name, st) =>
          match st.peek_token with
          | .LeftParen =>
            let (_, st) := st.next_token
            match parse_index_cols_loop fuel [] st with
            | .error e => .error e
            | .ok (columns, st) =>
              .ok (.CreateIndex ⟨index_name, is_unique, table_name,
                columns⟩, st)
          | _ => perr "unexpected token"

def parse_index_cols_loop (fuel : Nat) (cols : List String)
    (st : PState) : Except RtErr (List String × PState) :=
  match fuel with
  | 0 => .error .fuel
  | fuel + 1 =>
    match st.next_ident with
    | .error e => .error e
    | .ok (c, st) =>
      let cols := cols ++ [c]
      match st.next_token with
      | (.Comma, st) => parse_index_cols_loop fuel cols st
      | (.RightParen, st) => .ok (cols, st)
      | (_, _) => perr "unexpected token, want Comma or RightParen"

def parse_create_table_stmt (fuel : Nat) (st : PState) :
    Except RtErr (Statement × PState) :=
  match fuel with
  | 0 => .error .fuel
  | fuel + 1 =>
    match st.next_expected_keyword .Table with
    | .error e => .error e
    | .ok st =>
      match st.next_ident with
      | .error e => .error e
      | .ok (table_name, st) =>
        match st.next_expected_token .LeftParen with
        | .error e => .error e
        | .ok st =>
          match parse_create_columns_loop fuel [] st with
          | .error e => .error e
          | .ok (columns, st) =>
            match st.next_expected_token .Semicolon with
            | .error e => .error e
            | .ok st => .ok (.CreateTable ⟨columns, table_name⟩, st)

def parse_create_columns_loop (fuel : Nat) (cols : List Column)
    (st : PState) : Except RtErr (List Column × PState) :=
  match fuel with
  | 0 => .error .fuel
  | fuel + 1 =>
    match parse_column fuel st with
    | .error e => .error e
    | .ok (c, st) =>
      let cols := cols ++ [c]
      match st.next_token with
      | (.Comma, st) => parse_create_columns_loop fuel cols st
      | (.RightParen, st) => .ok (cols, st)
      | (_, _) => perr "unexpected token, want Comma or RightParen"

def parse_column (fuel : Nat) (st : PState) :
    Except RtErr (Column × PState) :=
  match fuel with
  | 0 => .error .fuel
  | fuel + 1 =>
    match st.next_ident with
    | .error e => .error e
    | .ok (column_name, st) =>
      let dtStep : Except RtErr (DataType × PState) :=
        match st.next_token with
        | (.KeyWord .Bool, st) => .ok (.Bool, st)
        | (.KeyWord .Boolean, st) => .ok (.Bool, st)
        | (.KeyWord .Float, st) => .ok (.Float32, st)
        | (.KeyWord .Double, st) => .ok (.Float64, st)
        | (.KeyWord .Int, st) => .ok (.Int32, st)
        | (.KeyWord .Integer, st) => .ok (.Int32, st)
        | (.KeyWord .Int8, st) => .ok (.Int8, st)
        | (.KeyWord .Int16, st) => .ok (.Int16, st)
        | (.KeyWord .Int32, st) => .ok (.Int32, st)
        | (.KeyWord .Int64, st) => .ok (.Int64, st)
        | (.KeyWord .Uint8, st) => .ok (.Uint8, st)
        | (.KeyWord .Uint16, st) => .ok (.Uint16, st)
        | (.KeyWord .Uint32, st) => .ok (.Uint32, st)
        | (.KeyWord .Uint64, st) => .ok (.Uint64, st)
        | (.KeyWord .Float32, st) => .ok (.Float32, st)
        | (.KeyWord .Float64, st) => .ok (.Float64, st)
        | (.KeyWord .Text, st) => .ok (.String, st)
        | (.KeyWord .VarChar, st) =>
          match st.next_expected_token .LeftParen with
          | .error e => .error e
          | .ok st =>
            match st.next_token with
            | (.Number n, st) =>
              match rustParseUsize n with
              | some l =>
                match st.next_expected_token .RightParen with
                | .error e => .error e
                | .ok st => .ok (.Varchar l, st)
              | none => perr "parse err"
            | (_, _) => perr "unexpected token, expected: Number"
        | (.KeyWord .Char, st) => .ok (.Char, st)
        | (.KeyWord .String, st) => .ok (.String, st)
        | (_, _) => perr "unexpected token"
      match dtStep with
      | .error e => .error e
      | .ok (dt, st) =>
        parse_column_options_loop fuel (mkColumnBase column_name dt) st

def parse_column_options_loop (fuel : Nat) (col : Column) (st : PState) :
    Except RtErr (Column × PState) :=
  match fuel with
  | 0 => .error .fuel
  | fuel + 1 =>
    match st.peek_token with
    | .KeyWord kw =>
      match kw with
      | .Primary =>
        let (_, st) := st.next_token
        match st.next_expected_keyword .Key with
        | .error e => .error e
        | .ok st =>
          parse_column_options_loop fuel { col with primary_key := true } st
      | .Null =>
        let (_, st) := st.next_token
        if col.nullable = some false then
          perr "Column cant be both not nullable and nullable"
        else
          parse_column_options_loop fuel { col with nullable := some true } st
      | .Not =>
        let (_, st) := st.next_token
        match st.next_expected_keyword .Null with
        | .error e => .error e
        | .ok st =>
          parse_column_options_loop fuel { col with nullable := some false } st
      | .Default =>
        let (_, st) := st.next_token
        let (_, st) := st.next_token
        match parse_expression fuel .Lowest st with
        | .error e => .error e
        | .ok (e, st) =>
          parse_column_options_loop fuel { col with default := some e } st
      | .Unique =>
        let (_, st) := st.next_token
        parse_column_options_loop fuel { col with unique := true } st
      | .Index =>
        let (_, st) := st.next_token
        parse_column_options_loop fuel { col with index := true } st
      | .References =>
        let (_, st) := st.next_token
        match st.next_ident with
        | .error e => .error e
        | .ok (i, st) =>
          parse_column_options_loop fuel { col with references := some i } st
      | _ => perr "unexpected keyword"
    | _ => .ok (col, st)

def parse_alter_stmt (fuel : Nat) (st : PState) :
    Except RtErr (Statement × PState) :=
  match fuel with
  | 0 => .error .fuel
  | fuel + 1 =>
    match st.next_expected_keyword .Table with
    | .error e => .error e
    | .ok st =>
      match st.next_ident with
      | .error e => .error e
      | .ok (table_name, st) =>
        let (_, st) := st.next_token
        match st.pre_token with
        | .KeyWord .Add =>
          match st.peek_token with
          | .KeyWord .Column =>
            let (_, st) := st.next_token
            match parse_column fuel st with
            | .error e => .error e
            | .ok (c, st) => .ok (.Alter ⟨.AddColumn c, table_name⟩, st)
          | .Ident _ =>
            let (_, st) := st.next_token
            match parse_column fuel st with
            | .error e => .error e
            | .ok (c, st) => .ok (.Alter ⟨.AddColumn c, table_name⟩, st)
          | .KeyWord .Index =>
            let (_, st) := st.next_token
            let (add_index_name, st) :=
              match st.peek_token with
              | .Ident i => (some i, (st.next_token).2)
              | _ => (none, st)
            match st.peek_token with
            | .LeftParen =>
              let (_, st) := st.next_token
              match parse_alter_index_cols_loop fuel [] st with
              | .error e => .error e
              | .ok (column_list, st) =>
                .ok (.Alter ⟨.AddIndex add_index_name column_list,
                  table_name⟩, st)
            | _ => perr "expected Token::LeftParen"
          | _ => perr "unexpected token"
        | .KeyWord .Drop =>
          match st.peek_token with
          | .KeyWord .Column =>
            let (_, st) := st.next_token
            match st.next_ident with
            | .error e => .error e
            | .ok (column_name, st) =>
              .ok (.Alter ⟨.DropColumn column_name, table_name⟩, st)
          | .KeyWord .Index =>
            let (_, st) := st.next_token
            match st.next_ident with
            | .error e => .error e
            | .ok (index_name, st) =>
              .ok (.Alter ⟨.RemoveIndex index_name, table_name⟩, st)
          | _ => perr "unexpected token"
        | .KeyWord .Rename =>
          match st.peek_token with
          | .KeyWord .Column =>
            let (_, st) := st.next_token
            match st.next_ident with
            | .error e => .error e
            | .ok (oldName, st) =>
              match st.next_expected_keyword .To with
              | .error e => .error e
              | .ok st =>
                match st.next_ident with
                | .error e => .error e
                | .ok (newName, st) =>
                  .ok (.Alter ⟨.RenameColumn oldName newName, table_name⟩, st)
          | .KeyWord .To =>
            let (_, st) := st.next_token
            match st.next_ident with
            | .error e => .error e
            | .ok (newName, st) =>
              .ok (.Alter ⟨.RenameTable newName, table_name⟩, st)
          | _ => perr "unexpected token"
        | .KeyWord .Modify =>
          let (_, st) := st.next_token
          match parse_column fuel st with
          | .error e => .error e
          | .ok (c, st) => .ok (.Alter ⟨.ModifyColumn c, table_name⟩, st)
        | _ => perr "ALTER TABLE is not valid unexpected token"

def parse_alter_index_cols_loop (fuel : Nat) (cols : List String)
    (st : PState) : Except RtErr (List String × PState) :=
  match fuel with
  | 0 => .error .fuel
  | fuel + 1 =>
    match st.peek_token with
    | .Ident i =>
      let (_, st) := st.next_token
      parse_alter_index_cols_loop fuel (cols ++ [i]) st
    | .Comma =>
      let (_, st) := st.next_token
      parse_alter_index_cols_loop fuel cols st
    | .RightParen =>
      let (_, st) := st.next_token
      .ok (cols, st)
    | _ => perr "expected Token::LeftParen"

def parse_select_stmt (fuel : Nat) (st : PState) :
    Except RtErr (Statement × PState) :=
  match fuel with
  | 0 => .error .fuel
  | fuel + 1 =>
    match parse_clause_select fuel st with
    | .error e => .error e
    | .ok (selects, st) =>
      match parse_clause_from fuel st with
      | .error e => .error e
      | .ok (froms_exprs, st) =>
        let froms := if froms_exprs.isEmpty then none else some froms_exprs
        match parse_clause_where fuel st with
        | .error e => .error e
        | .ok (wheres, st) =>
          match parse_clause_group_by fuel st with
          | .error e => .error e
          | .ok (group_by_expr, st) =>
            let group_by :=
              if group_by_expr.isEmpty then none else some group_by_expr
            match parse_clause_having fuel st with
            | .error e => .error e
            | .ok (having, st) =>
              match parse_clause_order fuel st with
              | .error e => .error e
              | .ok (order_exprs, st) =>
                let order :=
                  if order_exprs.isEmpty then none else some order_exprs
                let offsetStep :
                    Except RtErr (Option Expression × PState) :=
                  match st.pre_token with
                  | .KeyWord .Offset =>
                    let (_, st) := st.next_token
                    match mapParseErr "OFFSET exp is not valid!"
                        (parse_expression fuel .Lowest st) with
                    | .error e => .error e
                    | .ok (e, st) => .ok (some e, st)
                  | _ => .ok (none, st)
                match offsetStep with
                | .error e => .error e
                | .ok (offset, st) =>
                  let limitStep :
                      Except RtErr (Option Expression × PState) :=
                    match st.peek_token with
                    | .KeyWord .Limit =>
                      let (_, st) := st.next_token
                      let (_, st) := st.next_token
                      match mapParseErr "LIMIT exp is not valid!"
                          (parse_expression fuel .Lowest st) with
                      | .error e => .error e
                      | .ok (e, st) => .ok (some e, st)
                    | _ => .ok (none, st)
                  match limitStep with
                  | .error e => .error e
                  | .ok (limit, st) =>
                    .ok (.Select ⟨selects, froms, wheres, group_by,
                      having, order, offset, limit⟩, st)

def parse_clause_select (fuel : Nat) (st : PState) :
    Except RtErr (List (Expression × Option String) × PState) :=
  match fuel with
  | 0 => .error .fuel
  | fuel + 1 => parse_clause_select_loop fuel [] st

def parse_clause_select_loop (fuel : Nat)
    (selects : List (Expression × Option String)) (st : PState) :
    Except RtErr (List (Expression × Option String) × PState) :=
  match fuel with
  | 0 => .error .fuel
  | fuel + 1 =>
    let (isAst, st) := st.next_if_token .Asterisk
    if isAst && selects.isEmpty then
      let (_, st) := st.next_token
      .ok (selects, st)
    else
      match mapParseErr "SELECT expression is not valid!"
          (parse_expression fuel .Lowest st) with
      | .error e => .error e
      | .ok (expr, st) =>
        let aliasStep : Except RtErr (Option String × PState) :=
          match st.peek_token with
          | .KeyWord .As =>
            let (_, st) := st.next_token
            match st.peek_token with
            | .Ident ident =>
              let (_, st) := st.next_token
              .ok (some ident, st)
            | _ => perr "AS is not valid!"
          | .Ident ident =>
            let (_, st) := st.next_token
            .ok (some ident, st)
          | _ => .ok (none, st)
        match aliasStep with
        | .error e => .error e
        | .ok (al, st) =>
          let selects := selects ++ [(expr, al)]
          let (_, st) := st.next_token
          match st.pre_token with
          | .Comma => parse_clause_select_loop fuel selects st
          | _ => .ok (selects, st)

def parse_clause_from (fuel : Nat) (st : PState) :
    Except RtErr (List FromItem × PState) :=
  match fuel with
  | 0 => .error .fuel
  | fuel + 1 =>
    match st.pre_token with
    | .KeyWord .From => parse_from_items_loop fuel [] st
    | _ => .ok ([], st)

def parse_from_items_loop (fuel : Nat) (froms : List FromItem)
    (st : PState) : Except RtErr (List FromItem × PState) :=
  match fuel with
  | 0 => .error .fuel
  | fuel + 1 =>
    match parse_clause_from_table st with
    | .error e => .error e
    | .ok (item, st) =>
      match parse_from_joins_loop fuel item st with
      | .error e => .error e
      | .ok (item, st) =>
        let froms := froms ++ [item]
        match st.pre_token with
        | .KeyWord k =>
          match k with
          | .Where | .Group | .Having | .Order | .Limit | .Offset =>
            .ok (froms, st)
          | _ => parse_from_items_loop fuel froms st
        | _ =>
          let (_, st) := st.next_token
          .ok (froms, st)

def parse_from_joins_loop (fuel : Nat) (item : FromItem) (st : PState) :
    Except RtErr (FromItem × PState) :=
  match fuel with
  | 0 => .error .fuel
  | fuel + 1 =>
    match parse_clause_from_jointype st with
    | .error e => .error e
    | .ok (none, st) => .ok (item, st)
    | .ok (some join_type, st) =>
      match parse_clause_from_table st with
      | .error e => .error e
      | .ok (right, st) =>
        match parse_join_predicate fuel join_type st with
        | .error e => .error e
        | .ok (predicate, st) =>
          parse_from_joins_loop fuel (.Join item right join_type predicate) st

def parse_join_predicate (fuel : Nat) (join_type : JoinType)
    (st : PState) : Except RtErr (Option Expression × PState) :=
  match fuel with
  | 0 => .error .fuel
  | fuel + 1 =>
    match join_type with
    | .Outer => .ok (none, st)
    | _ =>
      match st.next_expected_keyword .On with
      | .error e => .error e
      | .ok st =>
        let (_, st) := st.next_token
        match mapParseErr "ON Predicate expression is not valid!"
            (parse_expression fuel .Lowest st) with
        | .error e => .error e
        | .ok (e, st) => .ok (some e, st)

def parse_clause_group_by (fuel : Nat) (st : PState) :
    Except RtErr (List Expression × PState) :=
  match fuel with
  | 0 => .error .fuel
  | fuel + 1 =>
    match st.pre_token with
    | .KeyWord .Group =>
      match st.next_expected_keyword .By with
      | .error e => .error e
      | .ok st =>
        let (_, st) := st.next_token
        parse_group_by_loop fuel [] st
    | _ => .ok ([], st)

def parse_group_by_loop (fuel : Nat) (exprs : List Expression)
    (st : PState) : Except RtErr (List Expression × PState) :=
  match fuel with
  | 0 => .error .fuel
  | fuel + 1 =>
    match mapParseErr "GROUP BY exp is not valid!"
        (parse_expression fuel .Lowest st) with
    | .error e => .error e
    | .ok (e, st) =>
      let exprs := exprs ++ [e]
      let (_, st) := st.next_token
      match st.peek_token with
      | .Comma => parse_group_by_loop fuel exprs st
      | _ => .ok (exprs, st)

def parse_clause_where (fuel : Nat) (st : PState) :
    Except RtErr (Option Expression × PState) :=
  match fuel with
  | 0 => .error .fuel
  | fuel + 1 =>
    match st.pre_token with
    | .KeyWord .Where =>
      let (_, st) := st.next_token
      match mapParseErr "WHERE exp is not valid!"
          (parse_expression fuel .Lowest st) with
      | .error e => .error e
      | .ok (e, st) =>
        let (_, st) := st.next_token
        .ok (some e, st)
    | _ => .ok (none, st)

def parse_clause_having (fuel : Nat) (st : PState) :
    Except RtErr (Option Expression × PState) :=
  match fuel with
  | 0 => .error .fuel
  | fuel + 1 =>
    match st.pre_token with
    | .KeyWord .Having =>
      let (_, st) := st.next_token
      match mapParseErr "HAVING exp is not valid!"
          (parse_expression fuel .Lowest st) with
      | .error e => .error e
      | .ok (e, st) =>
        let (_, st) := st.next_token
        .ok (some e, st)
    | _ => .ok (none, st)

def parse_clause_order (fuel : Nat) (st : PState) :
    Except RtErr (List (Expression × OrderByType) × PState) :=
  match fuel with
  | 0 => .error .fuel
  | fuel + 1 =>
    match st.pre_token with
    | .KeyWord .Order =>
      match st.next_expected_keyword .By with
      | .error e => .error e
      | .ok st =>
        let (_, st) := st.next_token
        parse_order_loop fuel [] st
    | _ => .ok ([], st)

def parse_order_loop (fuel : Nat)
    (orders : List (Expression × OrderByType)) (st : PState) :
    Except RtErr (List (Expression × OrderByType) × PState) :=
  match fuel with
  | 0 => .error .fuel
  | fuel + 1 =>
    match mapParseErr "ORDER BY exp is not valid!"
        (parse_expression fuel .Lowest st) with
    | .error e => .error e
    | .ok (e, st) =>
      let (_, st) := st.next_token
      let dir :=
        match st.pre_token with
        | .KeyWord .Asc => OrderByType.Asc
        | .KeyWord .Desc => OrderByType.Desc
        | _ => OrderByType.Asc
      let orders := orders ++ [(e, dir)]
      let (isComma, st) := st.next_if_token .Comma
      if isComma then parse_order_loop fuel orders st
      else .ok (orders, st)

def parse_update_stmt (fuel : Nat) (st : PState) :
    Except RtErr (Statement × PState) :=
  match fuel with
  | 0 => .error .fuel
  | fuel + 1 =>
    match st.next_ident with
    | .error e => .error e
    | .ok (table_name, st) =>
      match st.next_expected_keyword .Set with
      | .error e => .error e
      | .ok st =>
        match parse_update_set_loop fuel [] st with
        | .error e => .error e
        | .ok (set, st) =>
          match parse_clause_where fuel st with
          | .error e => .error e
          | .ok (wheres, st) =>
            .ok (.Update ⟨table_name, set, wheres⟩, st)

def parse_update_set_loop (fuel : Nat) (set : List (String × Expression))
    (st : PState) : Except RtErr (List (String × Expression) × PState) :=
  match fuel with
  | 0 => .error .fuel
  | fuel + 1 =>
    match st.next_ident with
    | .error e => .error e
    | .ok (column, st) =>
      match st.next_expected_token .Equal with
      | .error e => .error e
      | .ok st =>
        let (_, st) := st.next_token
        match mapParseErr "expr is not valid!"
            (parse_expression fuel .Lowest st) with
        | .error e => .error e
        | .ok (expr, st) =>
          if (set.lookup column).isSome then
            perr "Duplicate values given for column"
          else
            let set := set ++ [(column, expr)]
            if st.peek_token ≠ Token.Comma then
              let (_, st) := st.next_token
              .ok (set, st)
            else parse_update_set_loop fuel set st

def parse_expression (fuel : Nat) (precedence : Precedence)
    (st : PState) : Except RtErr (Expression × PState) :=
  match fuel with
  | 0 => .error .fuel
  | fuel + 1 =>
    if !is_prefix_oper st.pre_token then perr "No prefix Operator Func"
    else
      match parse_prefix_expr fuel st with
      | .error e => .error e
      | .ok (none, _) => perr "ParsePrefixExpression exp is None"
      | .ok (some lhs, st) => parse_expr_loop fuel precedence lhs st

def parse_expr_loop (fuel : Nat) (precedence : Precedence)
    (lhs : Expression) (st : PState) :
    Except RtErr (Expression × PState) :=
  match fuel with
  | 0 => .error .fuel
  | fuel + 1 =>
    if st.pre_token ≠ Token.Semicolon &&
        Precedence.lt precedence (match_precedence st.peek_token) then
      if !is_infix_oper st.peek_token then .ok (lhs, st)
      else
        let (_, st) := st.next_token
        match parse_infix_expr fuel lhs st with
        | .error e => .error e
        | .ok (lhs, st) => parse_expr_loop fuel precedence lhs st
    else .ok (lhs, st)

def parse_prefix_expr (fuel : Nat) (st : PState) :
    Except RtErr (Option Expression × PState) :=
  match fuel with
  | 0 => .error .fuel
  | fuel + 1 =>
    match st.pre_token with
    | .Exclamation =>
      let (_, st) := st.next_token
      match mapParseErr "Operation::Not exp is not valid!"
          (parse_expression fuel .PrecPrefix st) with
      | .error e => .error e
      | .ok (e, st) => .ok (some (.Operation (.Not e)), st)
    | .Add =>
      let (_, st) := st.next_token
      match mapParseErr "Operation::Assert exp is not valid!"
          (parse_expression fuel .PrecPrefix st) with
      | .error e => .error e
      | .ok (e, st) => .ok (some (.Operation (.Assert e)), st)
    | .Minus =>
      let (_, st) := st.next_token
      match mapParseErr "Operation::Negate exp is not valid!"
          (parse_expression fuel .PrecPrefix st) with
      | .error e => .error e
      | .ok (e, st) => .ok (some (.Operation (.Negate e)), st)
    | .Number n =>
      if n.data.contains '.' then
        match rustParseF64 n with
        | some v => .ok (some (.Literal (.Float v)), st)
        | none => perr "invalid float literal"
      else
        match rustParseI64 n with
        | some v => .ok (some (.Literal (.Int v)), st)
        | none => perr "invalid digit found in string"
    | .LeftParen =>
      let (_, st) := st.next_token
      match parse_expression fuel .Lowest st with
      | .error e => .error e
      | .ok (exp, st) =>
        let (b, st) := st.peek_if_token .RightParen
        if !b then .ok (none, st)
        else .ok (some exp, st)
    | .Ident i =>
      match st.peek_token with
      | .LeftParen => .ok (some (.Literal (.String i)), st)
      | .Period =>
        let (_, st) := st.next_token
        match st.peek_token with
        | .Ident i2 =>
          let (_, st) := st.next_token
          .ok (some (.Field (some i) i2), st)
        | _ => perr "expected: Token::Ident"
      | _ => .ok (some (.Field none i), st)
    | .String s => .ok (some (.Literal (.String s)), st)
    | .KeyWord k =>
      match k with
      | .True => .ok (some (.Literal (.Bool true)), st)
      | .False => .ok (some (.Literal (.Bool false)), st)
      | .Null => .ok (some (.Literal .Null), st)
      | _ => perr "No prefixOperatorFunc"
    | _ => perr "No prefixOperatorFunc"

def parse_infix_expr (fuel : Nat) (exp : Expression) (st : PState) :
    Except RtErr (Expression × PState) :=
  match fuel with
  | 0 => .error .fuel
  | fuel + 1 =>
    match st.pre_token with
    | .Add =>
      let precedence := match_precedence st.pre_token
      let (_, st) := st.next_token
      match mapParseErr "Operation::Add exp is not valid!"
          (parse_expression fuel precedence st) with
      | .error e => .error e
      | .ok (rhs, st) => .ok (.Operation (.Add exp rhs), st)
    | .Equal =>
      let precedence := match_precedence st.pre_token
      let (_, st) := st.next_token
      match mapParseErr "Operation::Equal exp is not valid!"
          (parse_expression fuel precedence st) with
      | .error e => .error e
      | .ok (rhs, st) => .ok (.Operation (.Equal exp rhs), st)
    | .GreaterThan =>
      let precedence := match_precedence st.pre_token
      let (_, st) := st.next_token
      match mapParseErr "Operation::GreaterThan exp is not valid!"
          (parse_expression fuel precedence st) with
      | .error e => .error e
      | .ok (rhs, st) => .ok (.Operation (.GreaterThan exp rhs), st)
    | .GreaterThanOrEqual =>
      let precedence := match_precedence st.pre_token
      let (_, st) := st.next_token
      match mapParseErr "Operation::GreaterThanOrEqual is not valid!"
          (parse_expression fuel precedence st) with
      | .error e => .error e
      | .ok (rhs, st) => .ok (.Operation (.GreaterThanOrEqual exp rhs), st)
    | .LessThan =>
      let precedence := match_precedence st.pre_token
      let (_, st) := st.next_token
      match mapParseErr "Operation::LessThan exp is not valid!"
          (parse_expression fuel precedence st) with
      | .error e => .error e
      | .ok (rhs, st) => .ok (.Operation (.LessThan exp rhs), st)
    | .LessThanOrEqual =>
      let precedence := match_precedence st.pre_token
      let (_, st) := st.next_token
      match mapParseErr "Operation::LessThanOrEqual exp is not valid!"
          (parse_expression fuel precedence st) with
      | .error e => .error e
      | .ok (rhs, st) => .ok (.Operation (.LessThanOrEqual exp rhs), st)
    | .Minus =>
      let precedence := match_precedence st.pre_token
      let (_, st) := st.next_token
      match mapParseErr "Operation::Minus exp is not valid!"
          (parse_expression fuel precedence st) with
      | .error e => .error e
      | .ok (rhs, st) => .ok (.Operation (.Subtract exp rhs), st)
    | .NotEqual =>
      let precedence := match_precedence st.pre_token
      let (_, st) := st.next_token
      match mapParseErr "Operation::NotEqual exp is not valid!"
          (parse_expression fuel precedence st) with
      | .error e => .error e
      | .ok (rhs, st) => .ok (.Operation (.NotEqual exp rhs), st)
    | .KeyWord .And =>
      let precedence := match_precedence st.pre_token
      let (_, st) := st.next_token
      match mapParseErr "Operation::And exp is not valid!"
          (parse_expression fuel precedence st) with
      | .error e => .error e
      | .ok (rhs, st) => .ok (.Operation (.And exp rhs), st)
    | .KeyWord .Or =>
      let precedence := match_precedence st.pre_token
      let (_, st) := st.next_token
      match mapParseErr "Operation::Or exp is not valid!"
          (parse_expression fuel precedence st) with
      | .error e => .error e
      | .ok (rhs, st) => .ok (.Operation (.Or exp rhs), st)
    | .KeyWord .Like =>
      let precedence := match_precedence st.pre_token
      let (_, st) := st.next_token
      match mapParseErr "Operation::Like exp is not valid!"
          (parse_expression fuel precedence st) with
      | .error e => .error e
      | .ok (rhs, st) => .ok (.Operation (.Like exp rhs), st)
    | .Percent =>
      let precedence := match_precedence st.pre_token
      let (_, st) := st.next_token
      match mapParseErr "Operation::Percent exp is not valid!"
          (parse_expression fuel precedence st) with
      | .error e => .error e
      | .ok (rhs, st) => .ok (.Operation (.Modulo exp rhs), st)
    | .Asterisk =>
      let precedence := match_precedence st.pre_token
      let (_, st) := st.next_token
      match mapParseErr "Operation::Asterisk exp is not valid!"
          (parse_expression fuel precedence st) with
      | .error e => .error e
      | .ok (rhs, st) => .ok (.Operation (.Multiply exp rhs), st)
    | .Slash =>
      let precedence := match_precedence st.pre_token
      let (_, st) := st.next_token
      match mapParseErr "Operation::Slash exp is not valid!"
          (parse_expression fuel precedence st) with
      | .error e => .error e
      | .ok (rhs, st) => .ok (.Operation (.Divide exp rhs), st)
    | .LeftParen =>
      match exp with
      | .Literal (.String s) =>
        match st.peek_token with
        | .Asterisk =>
          let (_, st) := st.next_token
          match st.peek_token with
          | .RightParen =>
            let (_, st) := st.next_token
            .ok (.Function s [.Literal .All], st)
          | _ => perr "Operation::LeftParen exp is not Literal::String"
        | .RightParen =>
          let (_, st) := st.next_token
          .ok (.Function s [], st)
        | _ =>
          match parse_expression_list fuel st with
          | .error e => .error e
          | .ok (some exprs, st) => .ok (.Function s exprs, st)
          | .ok (none, _) => perr "Operation::LeftParen exp is None"
      | _ => perr "Operation::LeftParen exp is not Literal::String"
    | _ => perr "No infixOperatorFunc"

def parse_expression_list (fuel : Nat) (st : PState) :
    Except RtErr (Option (List Expression) × PState) :=
  match fuel with
  | 0 => .error .fuel
  | fuel + 1 =>
    let (b, st) := st.peek_if_token .RightParen
    if b then
      let (_, st) := st.next_token
      .ok (some [], st)
    else
      let (_, st) := st.next_token
      match mapParseErr "Operation::LeftParen exp is not valid!"
          (parse_expression fuel .Lowest st) with
      | .error e => .error e
      | .ok (e, st) => parse_expression_list_rest fuel [e] st

def parse_expression_list_rest (fuel : Nat) (exprs : List Expression)
    (st : PState) : Except RtErr (Option (List Expression) × PState) :=
  match fuel with
  | 0 => .error .fuel
  | fuel + 1 =>
    let (b, st) := st.peek_if_token .Comma
    if b then
      let (_, st) := st.next_token
      match mapParseErr "parse_expression_list exp is not valid!"
          (parse_expression fuel .Lowest st) with
      | .error e => .error e
      | .ok (e, st) => parse_expression_list_rest fuel (exprs ++ [e]) st
    else
      let (b, st) := st.peek_if_token .RightParen
      if !b then .ok (none, st)
      else .ok (some exprs, st)

end

/-- Parse one statement from SQL text, with fuel ample for every input of
sane size (fuel only bounds the recursion depth of the embedding).  A lexer
slice panic is propagated. -/
def parseSQL (s : String) : Except RtErr Statement :=
  match tokenize s with
  | .error e => .error e
  | .ok toks =>
    match parse_stmt 1000 (mkPState toks) with
    | .ok (stmt, _) => .ok stmt
    | .error e => .error e

deriving instance Repr for Expression, Operation

deriving instance Repr for Column

deriving instance Repr for FromItem

deriving instance Repr for SelectStmt

deriving instance Repr for CreateTableStmt

deriving instance Repr for DeleteTableStmt

deriving instance Repr for InsertStmt

deriving instance Repr for UpdateStmt

deriving instance Repr for AlterType

deriving instance Repr for AlterStmt

deriving instance Repr for SetValue

deriving instance Repr for SetVariableType

deriving instance Repr for SetStmt

deriving instance Repr for Statement

/- ================================================================
   Types and catalog (src/types/mod.rs, src/types/value.rs,
   src/types/expr.rs, src/catalog/!)
   ================================================================ -/

inductive LogicalType where
  | Null
  | Bool
  | Int8
  | Int16
  | Int32
  | Int64
  | UInt8
  | UInt16
  | UInt32
  | UInt64
  | Float32
  | Float64
  | String
  | VarChar (n : Nat)
deriving DecidableEq, Repr

/-- types/value.rs Value; like the AST literal, a float value carries its
source text. -/
inductive Value where
  | All
  | Null
  | Bool (b : Bool)
  | Int (i : Int)
  | Float (text : String)
  | String (s : String)
deriving DecidableEq, Repr

inductive Operator where
  | Eq
  | NotEq
  | Lt
  | LtEq
  | Gt
  | GtEq
  | Plus
  | Minus
  | Multiply
  | Divide
  | Modules
  | And
  | Or
  | Xor
deriving DecidableEq, Repr

inductive AggExpr where
  | Min
  | Max
  | Count
  | Sum
deriving DecidableEq, Repr

def SUPPORT_AGG_NAME : List String := ["MIN", "MAX", "COUNT", "SUM"]

/-- types/expr.rs Expr (the planner IR); column_index is an i32 in the
source (idx as TableID), modelled as Int. -/
inductive Expr where
  | ColumnExpr (column_index : Int) (table_name : String)
      (column_name : String)
  | Alias (inner : Expr) (name : String)
  | Literal (v : Value)
  | BinaryExpr (left : Expr) (op : Operator) (right : Expr)
  | Agg (agg_type : AggExpr) (args : List Expr)

deriving instance Repr for Expr

/-- catalog/column.rs Column (the catalog column, distinct from the parser
AST Column). -/
structure CatalogColumn where
  column_type : LogicalType
  name : String
deriving DecidableEq, Repr

structure Schema where
  columns : List CatalogColumn
deriving DecidableEq, Repr

structure TableInfo where
  name : String
  id : Int
  schema : Schema
deriving DecidableEq, Repr

/-- Association-list model of HashMap::get. -/
def hmGet {α β : Type} [DecidableEq α] (m : List (α × β)) (k : α) :
    Option β :=
  (m.find? (fun p => p.1 = k)).map (fun p => p.2)

/-- Association-list model of HashMap::insert (replace or append). -/
def hmInsert {α β : Type} [DecidableEq α] (m : List (α × β)) (k : α)
    (v : β) : List (α × β) :=
  if (hmGet m k).isSome then
    m.map (fun p => if p.1 = k then (k, v) else p)
  else m ++ [(k, v)]

/-- catalog/mod.rs CataLog.  id_index_map is omitted: the only operation
that touches it, create_index, ends in unimplemented!() and is not part of
any claim. -/
structure CataLog where
  id_table_map : List (Int × TableInfo)
  name_id_map : List (String × Int)
  next_table_id : Int
  index_names_map : List (String × List (String × Int))
deriving DecidableEq, Repr

def CataLog.default : CataLog := ⟨[], [], 0, []⟩

def CataLog.create_table (c : CataLog) (table_name : String)
    (schema : Schema) : Except RtErr (TableInfo × CataLog) :=
  if (hmGet c.name_id_map table_name).isSome then
    .error (.err (.Internal s!"{table_name} has been exist"))
  else
    let table_id := c.next_table_id
    let table_info : TableInfo := ⟨table_name, table_id, schema⟩
    .ok (table_info,
      { id_table_map := hmInsert c.id_table_map table_id table_info,
        name_id_map := hmInsert c.name_id_map table_name table_id,
        next_table_id := c.next_table_id + 1,
        index_names_map := hmInsert c.index_names_map table_name [] })

def CataLog.is_table_exist (c : CataLog) (table_name : String) : Bool :=
  (hmGet c.name_id_map table_name).isSome

def CataLog.table_by_name (c : CataLog) (table_name : String) :
    Option TableInfo :=
  match hmGet c.name_id_map table_name with
  | some id =>
    match hmGet c.id_table_map id with
    | some table => some table
    | none => none
  | none => none

def CataLog.table_by_id (c : CataLog) (table_id : Int) :
    Option TableInfo :=
  hmGet c.id_table_map table_id

/- ================================================================
   PlanContext (src/planner/context.rs)
   ================================================================ -/

structure PlanContext where
  table_map : List (String × TableInfo)
  column_map : List (String × List String)
deriving DecidableEq, Repr

def PlanContext.new : PlanContext := ⟨[], []⟩

def PlanContext.info_by_name (ctx : PlanContext) (name : String) :
    Option TableInfo :=
  hmGet ctx.table_map name

def PlanContext.tablenames_by_columnname (ctx : PlanContext)
    (column_name : String) : Option (List String) :=
  hmGet ctx.column_map column_name

/-- insert_column_info: for every schema column, push the table's catalog
name onto the column's entry (creating the entry if absent). -/
def PlanContext.insert_column_info (ctx : PlanContext)
    (table_info : TableInfo) : PlanContext :=
  { ctx with
    column_map := table_info.schema.columns.foldl
      (fun m col =>
        if (hmGet m col.name).isSome then
          m.map (fun p =>
            if p.1 = col.name then (p.1, p.2 ++ [table_info.name]) else p)
        else m ++ [(col.name, [table_info.name])])
      ctx.column_map }

def PlanContext.insert_table_info (ctx : PlanContext)
    (table_name : String) (al : Option String) (info : TableInfo) :
    Except RtErr PlanContext :=
  match al with
  | some alias_name =>
    match hmGet ctx.table_map table_name, hmGet ctx.table_map alias_name with
    | none, none =>
      let tm :=
        hmInsert (hmInsert ctx.table_map table_name info) alias_name info
      let ctx := { ctx with table_map := tm }
      .ok (ctx.insert_column_info info)
    | _, _ =>
      .error (.err (.Plan s!"{table_name} {alias_name} is exist"))
  | none =>
    match hmGet ctx.table_map table_name with
    | some _ => .error (.err (.Plan s!"{table_name} is exist"))
    | none =>
      let ctx :=
        { ctx with table_map := hmInsert ctx.table_map table_name info }
      .ok (ctx.insert_column_info info)

/- ================================================================
   PlanNode (src/planner/logical_plan.rs)
   ================================================================ -/

inductive PlanNode where
  | Scan (table_name : String) (table_id : Int)
      (predicates : Option Expr)
  | Aggregation (input : PlanNode) (schema : Schema)
  | Filter (input : PlanNode) (predicates : Expr)
  | Join (left right : PlanNode) (join_type : JoinType)
      (predicates : Expr)
  | Projection (exprs : List (Expr × Option String)) (input : PlanNode)
  | Sort (input : PlanNode) (by_column : List (Expr × OrderByType))
  | Null

deriving instance Repr for PlanNode

/- ================================================================
   Planner (src/planner/mod.rs).  plan and plan_select take &mut self
   in the source and mutate only self.context; they are modelled as
   functions returning the Result together with the planner state as
   left by the call (also on the error path, as in Rust).
   ================================================================ -/

structure Planner where
  catalog : CataLog
  context : PlanContext
deriving DecidableEq, Repr

def Planner.new (catalog : CataLog) : Planner := ⟨catalog, PlanContext.new⟩

def Planner.reset_ctx (p : Planner) : Planner :=
  { p with context := PlanContext.new }

mutual

/-- parser/expression.rs Expression::has_aggregation.  The short-circuit
of Rust a? || b? is modelled exactly in each binary arm: the right operand
is only evaluated (and can only raise its Parse error) when the left one
reported no aggregation. -/
def has_aggregation : Expression → Except RtErr Bool
  | .Field _ _ => .ok false
  | .Column _ => .ok false
  | .Literal _ => .ok false
  | .Function name _ =>
    if strToUpper name = "SUM" || strToUpper name = "AVG" ||
        strToUpper name = "COUNT" || strToUpper name = "MIN" ||
        strToUpper name = "ONLY" then .ok true
    else .error (.err (.Parse s!"function_name: {name} is not valid"))
  | .Operation op => has_aggregation_op op

def has_aggregation_op : Operation → Except RtErr Bool
  | .And l r =>
    match has_aggregation l with
    | .error e => .error e
    | .ok true => .ok true
    | .ok false => has_aggregation r
  | .Not e => has_aggregation e
  | .Or l r =>
    match has_aggregation l with
    | .error e => .error e
    | .ok true => .ok true
    | .ok false => has_aggregation r
  | .NotEqual l r =>
    match has_aggregation l with
    | .error e => .error e
    | .ok true => .ok true
    | .ok false => has_aggregation r
  | .Equal l r =>
    match has_aggregation l with
    | .error e => .error e
    | .ok true => .ok true
    | .ok false => has_aggregation r
  | .GreaterThan l r =>
    match has_aggregation l with
    | .error e => .error e
    | .ok true => .ok true
    | .ok false => has_aggregation r
  | .GreaterThanOrEqual l r =>
    match has_aggregation l with
    | .error e => .error e
    | .ok true => .ok true
    | .ok false => has_aggregation r
  | .LessThan l r =>
    match has_aggregation l with
    | .error e => .error e
    | .ok true => .ok true
    | .ok false => has_aggregation r
  | .LessThanOrEqual l r =>
    match has_aggregation l with
    | .error e => .error e
    | .ok true => .ok true
    | .ok false => has_aggregation r
  | .IsNull e => has_aggregation e
  | .Add l r =>
    match has_aggregation l with
    | .error e => .error e
    | .ok true => .ok true
    | .ok false => has_aggregation r
  | .Subtract l r =>
    match has_aggregation l with
    | .error e => .error e
    | .ok true => .ok true
    | .ok false => has_aggregation r
  | .Multiply l r =>
    match has_aggregation l with
    | .error e => .error e
    | .ok true => .ok true
    | .ok false => has_aggregation r
  | .Divide l r =>
    match has_aggregation l with
    | .error e => .error e
    | .ok true => .ok true
    | .ok false => has_aggregation r
  | .Assert e => has_aggregation e
  | .Like l r =>
    match has_aggregation l with
    | .error e => .error e
    | .ok true => .ok true
    | .ok false => has_aggregation r
  | .Negate e => has_aggregation e
  | .BitWiseNot e => has_aggregation e
  | .Modulo l r =>
    match has_aggregation l with
    | .error e => .error e
    | .ok true => .ok true
    | .ok false => has_aggregation r

end

/-- The for-loop of plan_expression over a schema: index of the first
column with the given name. -/
def findColumnIdx (cols : List CatalogColumn) (name : String) :
    Option Nat :=
  cols.findIdx? (fun col => col.name = name)

def rustDebugVecStr (l : List String) : String :=
  "[" ++ String.intercalate ", "
    (l.map (fun s => "\x22" ++ s ++ "\x22")) ++ "]"

mutual

/-- src/planner/plan_expression.rs Planner::plan_expression (&self: reads
the context, never mutates).  Like the embedded parser, the family takes a
fuel argument bounding the recursion depth of the embedding. -/
def plan_expression (fuel : Nat) (p : Planner) (e : Expression) :
    Except RtErr Expr :=
  match fuel with
  | 0 => .error .fuel
  | fuel + 1 =>
    match e with
    | .Field tableName column_name =>
      match tableName with
      | some table_name =>
        match p.context.info_by_name table_name with
        | some info =>
          match findColumnIdx info.schema.columns column_name with
          | some idx =>
            .ok (.ColumnExpr (Int.ofNat idx) table_name column_name)
          | none =>
            .error (.err (.Plan
              s!"{column_name} is not exist in {table_name}"))
        | none => .error (.err (.Plan s!"{table_name} is not exist"))
      | none =>
        match p.context.tablenames_by_columnname column_name with
        | some table_names =>
          if table_names.length = 1 then
            match p.context.info_by_name (table_names.headD "") with
            | some info =>
              match findColumnIdx info.schema.columns column_name with
              | some idx =>
                .ok (.ColumnExpr (Int.ofNat idx) (table_names.headD "")
                  column_name)
              | none =>
                -- the for loop finds no column and control falls through
                -- to the todo!() at the end of the None arm
                .error .panicTodo
            | none =>
              let fmtNames := rustDebugVecStr table_names
              .error (.err (.Internal
                s!"{fmtNames} must exist in table_map"))
          else
            let fmtNames := rustDebugVecStr table_names
            .error (.err (.Plan s!"{column_name} is fuzzy, {fmtNames}"))
        | none => .error (.err (.Plan s!"{column_name} is not exist"))
    | .Column _ => .error .panicTodo
    | .Literal lit =>
      match lit with
      | .All => .ok (.Literal .All)
      | .Null => .ok (.Literal .Null)
      | .Bool v => .ok (.Literal (.Bool v))
      | .Int v => .ok (.Literal (.Int v))
      | .Float v => .ok (.Literal (.Float v))
      | .String v => .ok (.Literal (.String v))
    | .Function func_name args =>
      if func_name = "MIN" then
        match plan_expression_list fuel p args with
        | .error e => .error e
        | .ok res => .ok (.Agg .Min res)
      else if func_name = "MAX" then
        match plan_expression_list fuel p args with
        | .error e => .error e
        | .ok res => .ok (.Agg .Max res)
      else if func_name = "COUNT" then
        match plan_expression_list fuel p args with
        | .error e => .error e
        | .ok res => .ok (.Agg .Count res)
      else if func_name = "SUM" then
        match plan_expression_list fuel p args with
        | .error e => .error e
        | .ok res => .ok (.Agg .Sum res)
      else
        .error (.err (.Plan
          s!"{func_name} unknown function_name, only support MIN MAX COUNT SUM"))
    | .Operation op => plan_operation fuel p op

def plan_binary_op (fuel : Nat) (p : Planner) (l r : Expression)
    (op : Operator) : Except RtErr Expr :=
  match fuel with
  | 0 => .error .fuel
  | fuel + 1 =>
    match plan_expression fuel p l with
    | .error e => .error e
    | .ok le =>
      match plan_expression fuel p r with
      | .error e => .error e
      | .ok re => .ok (.BinaryExpr le op re)

def plan_operation (fuel : Nat) (p : Planner) (o : Operation) :
    Except RtErr Expr :=
  match fuel with
  | 0 => .error .fuel
  | fuel + 1 =>
    match o with
    | .And l r => plan_binary_op fuel p l r .And
    | .Not _ => .error .panicTodo
    | .Or l r => plan_binary_op fuel p l r .Or
    | .NotEqual l r => plan_binary_op fuel p l r .NotEq
    | .Equal l r => plan_binary_op fuel p l r .Eq
    | .GreaterThan l r => plan_binary_op fuel p l r .Gt
    | .GreaterThanOrEqual l r => plan_binary_op fuel p l r .GtEq
    | .LessThan l r => plan_binary_op fuel p l r .Lt
    | .LessThanOrEqual l r => plan_binary_op fuel p l r .LtEq
    | .IsNull _ => .error .panicTodo
    | .Add l r => plan_binary_op fuel p l r .Plus
    | .Subtract l r => plan_binary_op fuel p l r .Minus
    | .Multiply l r => plan_binary_op fuel p l r .Multiply
    | .Divide l r => plan_binary_op fuel p l r .Divide
    | .Assert _ => .error .panicTodo
    | .Like _ _ => .error .panicTodo
    | .Negate _ => .error .panicTodo
    | .BitWiseNot _ => .error .panicTodo
    | .Modulo _ _ => .error .panicTodo

def plan_expression_list (fuel : Nat) (p : Planner)
    (es : List Expression) : Except RtErr (List Expr) :=
  match fuel with
  | 0 => .error .fuel
  | fuel + 1 =>
    match es with
    | [] => .ok []
    | e :: rest =>
      match plan_expression fuel p e with
      | .error err => .error err
      | .ok el =>
        match plan_expression_list fuel p rest with
        | .error err => .error err
        | .ok restl => .ok (el :: restl)

end

/-- src/planner/plan_select.rs Planner::plan_from (&mut self: registers
scanned tables in the context). -/
def plan_from (fuel : Nat) (p : Planner) :
    FromItem → Except RtErr PlanNode × Planner
  | .Join left right join_type predicate =>
    match plan_from fuel p left with
    | (.error e, p) => (.error e, p)
    | (.ok left_node, p) =>
      match plan_from fuel p right with
      | (.error e, p) => (.error e, p)
      | (.ok right_node, p) =>
        match predicate with
        | some expr =>
          match plan_expression fuel p expr with
          | .error e => (.error e, p)
          | .ok pred =>
            (.ok (.Join left_node right_node join_type pred), p)
        | none =>
          (.error (.err (.Plan "join must take with condition expression")),
            p)
  | .Table name al =>
    match p.catalog.table_by_name name with
    | some info =>
      match p.context.insert_table_info name al info with
      | .error e => (.error e, p)
      | .ok ctx =>
        (.ok (.Scan name info.id none), { p with context := ctx })
    | none => (.error (.err (.Plan s!"table: {name} is not exist")), p)

/-- The is_has_agg loop of plan_select: stops at the first select
expression that reports an aggregation; errors propagate. -/
def selects_has_agg :
    List (Expression × Option String) → Except RtErr Bool
  | [] => .ok false
  | (e, _) :: rest =>
    match has_aggregation e with
    | .error err => .error err
    | .ok true => .ok true
    | .ok false => selects_has_agg rest

/-- The projection-expression loop of plan_normal_select. -/
def plan_select_exprs (fuel : Nat) (p : Planner) :
    List (Expression × Option String) →
    Except RtErr (List (Expr × Option String))
  | [] => .ok []
  | (e, al) :: rest =>
    match plan_expression fuel p e with
    | .error err => .error err
    | .ok e' =>
      match plan_select_exprs fuel p rest with
      | .error err => .error err
      | .ok rest' => .ok ((e', al) :: rest')

def plan_normal_select (fuel : Nat) (p : Planner)
    (select_stmt : SelectStmt) (node : PlanNode) :
    Except RtErr PlanNode :=
  match plan_select_exprs fuel p select_stmt.selects with
  | .error err => .error err
  | .ok exprs => .ok (.Projection exprs node)

/-- The ORDER BY expression loop of plan_select. -/
def plan_order_exprs (fuel : Nat) (p : Planner) :
    List (Expression × OrderByType) →
    Except RtErr (List (Expr × OrderByType))
  | [] => .ok []
  | (e, dir) :: rest =>
    match plan_expression fuel p e with
    | .error err => .error err
    | .ok e' =>
      match plan_order_exprs fuel p rest with
      | .error err => .error err
      | .ok rest' => .ok ((e', dir) :: rest')

/-- src/planner/plan_select.rs Planner::plan_select.  The no-FROM branch
and the aggregation branch are todo!() in the source (panics); froms[0] on
the (parser-unreachable) empty FROM vector is an indexing panic. -/
def plan_select (fuel : Nat) (p : Planner) (select_stmt : SelectStmt) :
    Except RtErr PlanNode × Planner :=
  if select_stmt.selects.isEmpty then
    (.error (.err (.Plan "cant select empty")), p)
  else
    let fromStep : Except RtErr PlanNode × Planner :=
      match select_stmt.froms with
      | some froms =>
        match froms with
        | f :: _ => plan_from fuel p f
        | [] => (.error .panicTodo, p)
      | none => (.error .panicTodo, p)
    match fromStep with
    | (.error e, p) => (.error e, p)
    | (.ok node, p) =>
      let whereStep : Except RtErr PlanNode :=
        match select_stmt.wheres with
        | some where_expr =>
          match plan_expression fuel p where_expr with
          | .error e => .error e
          | .ok pred => .ok (.Filter node pred)
        | none => .ok node
      match whereStep with
      | .error e => (.error e, p)
      | .ok node =>
        match selects_has_agg select_stmt.selects with
        | .error e => (.error e, p)
        | .ok is_has_agg =>
          if is_has_agg || select_stmt.group_by.isSome then
            (.error .panicTodo, p)
          else
            match plan_normal_select fuel p select_stmt node with
            | .error e => (.error e, p)
            | .ok node =>
              match select_stmt.order with
              | some order_by =>
                match plan_order_exprs fuel p order_by with
                | .error e => (.error e, p)
                | .ok exprs => (.ok (.Sort node exprs), p)
              | none => (.ok node, p)

/-- src/planner/mod.rs Planner::plan: dispatches Select only; every other
statement kind is todo!().  Note that it does NOT call reset_ctx. -/
def Planner.plan (fuel : Nat) (p : Planner) (ast : Statement) :
    Except RtErr PlanNode × Planner :=
  match ast with
  | .Select select_ast => plan_select fuel p select_ast
  | _ => (.error .panicTodo, p)

/-- src/planner/plan_createtable.rs: the HashSet-based duplicate-name scan;
returns the first column name already seen. -/
def findDupColumn (seen : List String) :
    List Column → Option String
  | [] => none
  | c :: rest =>
    if seen.contains c.name then some c.name
    else findDupColumn (seen ++ [c.name]) rest

/-- src/planner/plan_createtable.rs Planner::check_create_table.  It only
reads the catalog (through the shared handle) and performs no catalog
mutation; accordingly its embedding takes the planner and returns only the
Result. -/
def check_create_table (p : Planner) (create_stmt : CreateTableStmt) :
    Except RtErr Unit :=
  if p.catalog.is_table_exist create_stmt.table_name then
    .error (.err (.Plan
      s!"{create_stmt.table_name} is already exist in database"))
  else
    match findDupColumn [] create_stmt.columns with
    | some dup => .error (.err (.Plan s!"{dup} is fuzzy in your SQL"))
    | none =>
      if (create_stmt.columns.filter (fun x => x.primary_key)).length ≠ 1
      then
        .error (.err (.Plan
          s!"table {create_stmt.table_name} only support one primary key"))
      else .ok ()

/- ================================================================
   Concrete fixtures used by the claim theorems
   ================================================================ -/

/-- Run the Pratt expression parser on a token list, returning only the
expression (the way parse_expression is entered by every clause parser:
with pre = first token). -/
def parseExprToks (toks : List Token) : Except RtErr Expression :=
  match parse_expression 100 .Lowest (mkPState toks) with
  | .ok (e, _) => .ok e
  | .error e => .error e

/-- The byte buffer of the one-character input string "²"
(superscript two, UTF-8 bytes C2 B2): the lead byte C2 matches no lexer
rule and becomes the sentinel keyword token, and the continuation byte B2
satisfies char::is_numeric, so the next call starts a number run in the
middle of the character. -/
def utf8Sup2 : List Char := [Char.ofNat 0xC2, Char.ofNat 0xB2]

/-- The two-table catalog of the planner unit test
(src/planner/mod.rs tests::test_select): user(id, user, year, account)
with table id 0 and cccc(id) with table id 1. -/
def userCatalog : CataLog :=
  match CataLog.default.create_table "user"
      ⟨[⟨.UInt64, "id"⟩, ⟨.String, "user"⟩, ⟨.Int32, "year"⟩,
        ⟨.UInt16, "account"⟩]⟩ with
  | .ok (_, c) =>
    match c.create_table "cccc" ⟨[⟨.UInt32, "id"⟩]⟩ with
    | .ok (_, c) => c
    | .error _ => CataLog.default
  | .error _ => CataLog.default

/-- AST of: select id from user join cccc on cccc.id = user.id; -/
def astAmbig : Statement :=
  .Select ⟨[(.Field none "id", none)],
    some [.Join (.Table "user" none) (.Table "cccc" none) .Inner
      (some (.Operation (.Equal (.Field (some "cccc") "id")
        (.Field (some "user") "id"))))],
    none, none, none, none, none, none⟩

/-- AST of: select user.id from user; -/
def astC5 : Statement :=
  .Select ⟨[(.Field (some "user") "id", none)],
    some [.Table "user" none], none, none, none, none, none, none⟩

/-- The plan of astC5 over userCatalog. -/
def planC5 : PlanNode :=
  .Projection [(.ColumnExpr 0 "user" "id", none)] (.Scan "user" 0 none)

/-- AST select list of: SELECT 1 + 2 * 3; (no FROM clause). -/
def selectNoFrom : SelectStmt :=
  ⟨[(.Operation (.Add (.Literal (.Int 1))
      (.Operation (.Multiply (.Literal (.Int 2)) (.Literal (.Int 3))))),
    none)], none, none, none, none, none, none, none⟩

/-- One-table plan context: t1(c1). -/
def witInfo : TableInfo := ⟨"t1", 0, ⟨[⟨.Int32, "c1"⟩]⟩⟩

def witCtx : PlanContext := ⟨[("t1", witInfo)], [("c1", ["t1"])]⟩

/-- Two-table plan context in which column id is ambiguous. -/
def witInfoA : TableInfo := ⟨"a", 0, ⟨[⟨.Int32, "id"⟩]⟩⟩

def witInfoB : TableInfo := ⟨"b", 1, ⟨[⟨.Int32, "id"⟩]⟩⟩

def witCtx2 : PlanContext :=
  ⟨[("a", witInfoA), ("b", witInfoB)], [("id", ["a", "b"])]⟩

/- ================================================================
   Claim theorems
   ================================================================ -/

set_option maxHeartbeats 1000000 in
/-- C1 (counterexample): the claim asserts that a OR b AND c parses with
AND bound tighter than OR, i.e. equal to the AST of a OR (b AND c).  On
the code, SELECT 1 OR 2 AND 3; parses to (1 OR 2) AND 3 while
SELECT 1 OR (2 AND 3); parses to 1 OR (2 AND 3), and the two ASTs are
different. -/
theorem c1_counterexample :
    parseSQL "SELECT 1 OR 2 AND 3;" =
      .ok (.Select ⟨[(.Operation (.And
        (.Operation (.Or (.Literal (.Int 1)) (.Literal (.Int 2))))
        (.Literal (.Int 3))), none)], none, none, none, none, none,
        none, none⟩) ∧
    parseSQL "SELECT 1 OR (2 AND 3);" =
      .ok (.Select ⟨[(.Operation (.Or (.Literal (.Int 1))
        (.Operation (.And (.Literal (.Int 2)) (.Literal (.Int 3))))),
        none)], none, none, none, none, none, none, none⟩) ∧
    (Expression.Operation (.And
        (.Operation (.Or (.Literal (.Int 1)) (.Literal (.Int 2))))
        (.Literal (.Int 3))) ≠
      Expression.Operation (.Or (.Literal (.Int 1))
        (.Operation (.And (.Literal (.Int 2)) (.Literal (.Int 3)))))) := by
  have h1 : tokenize "SELECT 1 OR 2 AND 3;" =
      .ok [.KeyWord .Select, .Number "1", .KeyWord .Or, .Number "2",
        .KeyWord .And, .Number "3", .Semicolon] := rfl
  have h2 : tokenize "SELECT 1 OR (2 AND 3);" =
      .ok [.KeyWord .Select, .Number "1", .KeyWord .Or, .LeftParen,
        .Number "2", .KeyWord .And, .Number "3", .RightParen,
        .Semicolon] := rfl
  refine ⟨?_, ?_, by simp⟩
  · unfold parseSQL
    rw [h1]
    rfl
  · unfold parseSQL
    rw [h2]
    rfl

/-- C1 (amended): for identifier atoms a, b, c (and for the spec's numeral
instance), a + b * c and a + (b * c) parse to identical ASTs; AND and OR
share one precedence level (Sum, the level of + and -) and associate to
the left, so a OR b AND c parses as (a OR b) AND c; the keyword NOT is not
accepted as an expression prefix (Parse error); and the infix precedence
ladder of match_precedence is
Lowest < Equals (= !=) < LessGreater (< <= > >=) < Sum (+ - AND OR NOT)
< Product (* /) < Prefix < Call, with % and ^ mapped to Lowest. -/
theorem c1_operator_precedence :
    (∀ a b c : String,
      parseExprToks [.Ident a, .Add, .Ident b, .Asterisk, .Ident c] =
        .ok (.Operation (.Add (.Field none a)
          (.Operation (.Multiply (.Field none b) (.Field none c))))) ∧
      parseExprToks [.Ident a, .Add, .LeftParen, .Ident b, .Asterisk,
          .Ident c, .RightParen] =
        .ok (.Operation (.Add (.Field none a)
          (.Operation (.Multiply (.Field none b) (.Field none c)))))) ∧
    (parseExprToks (tokenizeStr "1 + 2 * 3") =
        .ok (.Operation (.Add (.Literal (.Int 1))
          (.Operation (.Multiply (.Literal (.Int 2))
            (.Literal (.Int 3)))))) ∧
      parseExprToks (tokenizeStr "1 + (2 * 3)") =
        .ok (.Operation (.Add (.Literal (.Int 1))
          (.Operation (.Multiply (.Literal (.Int 2))
            (.Literal (.Int 3))))))) ∧
    parseExprToks (tokenizeStr "1 OR 2 AND 3") =
      .ok (.Operation (.And
        (.Operation (.Or (.Literal (.Int 1)) (.Literal (.Int 2))))
        (.Literal (.Int 3)))) ∧
    (∀ (fuel : Nat) (prec : Precedence) (peek : Token)
        (rest : List Token),
      parse_expression (fuel + 1) prec ⟨.KeyWord .Not, peek, rest⟩ =
        .error (.err (.Parse "No prefix Operator Func"))) ∧
    (Precedence.lt .Lowest .Equals = true ∧
      Precedence.lt .Equals .LessGreater = true ∧
      Precedence.lt .LessGreater .Sum = true ∧
      Precedence.lt .Sum .Product = true ∧
      Precedence.lt .Product .PrecPrefix = true ∧
      Precedence.lt .PrecPrefix .Call = true) ∧
    (match_precedence .Equal = .Equals ∧
      match_precedence .NotEqual = .Equals ∧
      match_precedence .LessThan = .LessGreater ∧
      match_precedence .LessThanOrEqual = .LessGreater ∧
      match_precedence .GreaterThan = .LessGreater ∧
      match_precedence .GreaterThanOrEqual = .LessGreater ∧
      match_precedence (.KeyWord .And) = .Sum ∧
      match_precedence (.KeyWord .Or) = .Sum ∧
      match_precedence (.KeyWord .Not) = .Sum ∧
      match_precedence .Add = .Sum ∧
      match_precedence .Minus = .Sum ∧
      match_precedence .Slash = .Product ∧
      match_precedence .Asterisk = .Product ∧
      match_precedence .Percent = .Lowest ∧
      match_precedence .Caret = .Lowest ∧
      match_precedence .LeftParen = .Call) :=
  ⟨fun _ _ _ => ⟨rfl, rfl⟩, ⟨rfl, rfl⟩, rfl, fun _ _ _ _ => rfl,
    by decide, by decide⟩

set_option maxHeartbeats 4000000 in
/-- C2: unqualified column resolution through the context's column_map:
with exactly one recorded table t containing column c, Field(None, c)
resolves to ColumnExpr with t's name and c's index in t's schema; with no
recorded table a not-exist Plan error results; with two or more recorded
tables an ambiguity (fuzzy) Plan error results; concretely, the planner
rejects the bare id of the spec scenario over the user/cccc catalog as
ambiguous. -/
theorem c2_unqualified_column_resolution :
    (∀ (fuel : Nat) (cat : CataLog) (ctx : PlanContext) (c t : String)
        (info : TableInfo) (idx : Nat),
      PlanContext.tablenames_by_columnname ctx c = some [t] →
      PlanContext.info_by_name ctx t = some info →
      findColumnIdx info.schema.columns c = some idx →
      plan_expression (fuel + 1) ⟨cat, ctx⟩ (.Field none c) =
        .ok (.ColumnExpr (Int.ofNat idx) t c)) ∧
    (∀ (fuel : Nat) (cat : CataLog) (ctx : PlanContext) (c : String),
      PlanContext.tablenames_by_columnname ctx c = none →
      plan_expression (fuel + 1) ⟨cat, ctx⟩ (.Field none c) =
        .error (.err (.Plan s!"{c} is not exist"))) ∧
    (∀ (fuel : Nat) (cat : CataLog) (ctx : PlanContext) (c : String)
        (names : List String),
      PlanContext.tablenames_by_columnname ctx c = some names →
      2 ≤ names.length →
      ∃ msg, plan_expression (fuel + 1) ⟨cat, ctx⟩ (.Field none c) =
        .error (.err (.Plan msg))) ∧
    parseSQL "select id from user join cccc on cccc.id = user.id;" =
      .ok astAmbig ∧
    (Planner.plan 100 (Planner.new userCatalog) astAmbig).1 =
      .error (.err (.Plan "id is fuzzy, [\x22user\x22, \x22cccc\x22]")) := by
  have htok : tokenize "select id from user join cccc on cccc.id = user.id;" =
      .ok [.KeyWord .Select, .Ident "id", .KeyWord .From, .Ident "user",
        .KeyWord .Join, .Ident "cccc", .KeyWord .On, .Ident "cccc",
        .Period, .Ident "id", .Equal, .Ident "user", .Period, .Ident "id",
        .Semicolon] := rfl
  refine ⟨?_, ?_, ?_, by unfold parseSQL; rw [htok]; rfl, rfl⟩
  · intro fuel cat ctx c t info idx hT hI hIdx
    simp [plan_expression, hT, hI, hIdx]
  · intro fuel cat ctx c hT
    simp [plan_expression, hT]
  · intro fuel cat ctx c names hT hlen
    have hne : names.length ≠ 1 := by omega
    obtain ⟨fmt, hfmt⟩ : ∃ fmt, fmt = rustDebugVecStr names := ⟨_, rfl⟩
    refine ⟨s!"{c} is fuzzy, {fmt}", ?_⟩
    rw [hfmt]
    simp [plan_expression, hT, hne]

/-- C2 (witness): the three resolution outcomes at concrete contexts. -/
theorem c2_witness :
    plan_expression 1 ⟨CataLog.default, witCtx⟩ (.Field none "c1") =
      .ok (.ColumnExpr (Int.ofNat 0) "t1" "c1") ∧
    plan_expression 1 ⟨CataLog.default, witCtx⟩ (.Field none "zz") =
      .error (.err (.Plan "zz is not exist")) ∧
    (∃ msg, plan_expression 1 ⟨CataLog.default, witCtx2⟩
        (.Field none "id") = .error (.err (.Plan msg))) :=
  ⟨c2_unqualified_column_resolution.1 0 CataLog.default witCtx "c1" "t1"
      witInfo 0 rfl rfl rfl,
    (c2_unqualified_column_resolution.2.1 0 CataLog.default witCtx "zz"
      rfl).trans rfl,
    c2_unqualified_column_resolution.2.2.1 0 CataLog.default witCtx2 "id"
      ["a", "b"] rfl (by decide)⟩

/-- Helper for C3: the HashSet scan of check_create_table finds no
duplicate exactly when the column names (together with the already seen
ones) are pairwise distinct. -/
theorem findDupColumn_none_iff (cols : List Column) :
    ∀ seen : List String,
      (findDupColumn seen cols = none ↔
        ((cols.map (fun c => c.name)).Nodup ∧
          ∀ n ∈ seen, n ∉ cols.map (fun c => c.name))) := by
  induction cols with
  | nil => intro seen; simp [findDupColumn]
  | cons c rest ih =>
    intro seen
    by_cases h : c.name ∈ seen
    · have hc : seen.contains c.name = true := by
        simpa [List.elem_iff] using h
      simp only [findDupColumn, hc, if_pos]
      constructor
      · intro hfalse; cases hfalse
      · rintro ⟨_, hall⟩
        exact absurd (by simp) (hall c.name h)
    · have hc : seen.contains c.name = false := by
        simp [List.elem_iff]; exact h
      simp only [findDupColumn, hc, Bool.false_eq_true, if_neg,
        not_false_iff]
      rw [ih (seen ++ [c.name])]
      simp only [List.map_cons, List.nodup_cons, List.mem_append,
        List.mem_singleton, List.mem_cons, List.not_mem_nil, or_false]
      constructor
      · rintro ⟨hnd, hall⟩
        refine ⟨⟨fun hmem => (hall c.name (Or.inr rfl)) hmem, hnd⟩, ?_⟩
        intro n hn
        have hne : n ≠ c.name := fun he => h (he ▸ hn)
        intro hor
        rcases hor with he | hm
        · exact hne he
        · exact hall n (Or.inl hn) hm
      · rintro ⟨⟨hcn, hnd⟩, hall⟩
        refine ⟨hnd, ?_⟩
        rintro n (hn | rfl)
        · intro hm; exact (hall n hn) (Or.inr hm)
        · exact hcn

/-- C3: check_create_table accepts a CreateTable statement exactly when
the table name is not yet in the catalog, no two column definitions share
a name, and exactly one column is marked PRIMARY KEY; every rejection is a
Plan error.  The function only reads the catalog (no catalog mutation: it
holds the catalog behind a shared read-only handle and its embedding
returns no catalog). -/
theorem c3_check_create_table (p : Planner) (stmt : CreateTableStmt) :
    (check_create_table p stmt = .ok () ↔
      (p.catalog.is_table_exist stmt.table_name = false ∧
        (stmt.columns.map (fun c => c.name)).Nodup ∧
        (stmt.columns.filter (fun x => x.primary_key)).length = 1)) ∧
    (check_create_table p stmt = .ok () ∨
      ∃ msg, check_create_table p stmt = .error (.err (.Plan msg))) := by
  constructor
  · unfold check_create_table
    by_cases hex : p.catalog.is_table_exist stmt.table_name
    · simp [hex]
    · cases hdup : findDupColumn [] stmt.columns with
      | some d =>
        simp only [hex, Bool.false_eq_true, if_neg, not_false_iff, hdup]
        constructor
        · intro hfalse; cases hfalse
        · rintro ⟨_, hnd, _⟩
          rw [(findDupColumn_none_iff stmt.columns []).2 ⟨hnd, by simp⟩]
            at hdup
          cases hdup
      | none =>
        simp only [hex, Bool.false_eq_true, if_neg, not_false_iff, hdup]
        by_cases hpk :
            (stmt.columns.filter (fun x => x.primary_key)).length = 1
        · have hnd := (findDupColumn_none_iff stmt.columns []).1 hdup
          simp [hpk, hnd.1, hex]
        · simp [hpk]
  · unfold check_create_table
    by_cases hex : p.catalog.is_table_exist stmt.table_name
    · exact Or.inr ⟨s!"{stmt.table_name} is already exist in database",
        by simp [hex]⟩
    · cases hdup : findDupColumn [] stmt.columns with
      | some d =>
        exact Or.inr ⟨s!"{d} is fuzzy in your SQL", by simp [hex, hdup]⟩
      | none =>
        by_cases hpk :
            (stmt.columns.filter (fun x => x.primary_key)).length = 1
        · exact Or.inl (by simp [hex, hdup, hpk])
        · exact Or.inr
            ⟨s!"table {stmt.table_name} only support one primary key",
              by simp [hex, hdup, hpk]⟩

set_option maxHeartbeats 1000000 in
/-- C4: for every SELECT with a non-empty select list and no FROM clause,
plan_select reaches the todo!() of the absent-FROM branch, i.e. the code
panics instead of returning Projection over the PlanNode.Null sentinel
claimed by the spec; in particular SELECT 1 + 2 * 3; parses to a no-FROM
SelectStmt and planning it hits the panic. -/
theorem c4_select_without_from :
    parseSQL "SELECT 1 + 2 * 3;" = .ok (.Select selectNoFrom) ∧
    Planner.plan 100 (Planner.new CataLog.default) (.Select selectNoFrom) =
      (.error .panicTodo, Planner.new CataLog.default) ∧
    (∀ (fuel : Nat) (cat : CataLog) (ctx : PlanContext)
        (hd : Expression × Option String)
        (tl : List (Expression × Option String))
        (wheres : Option Expression) (gb : Option (List Expression))
        (hav : Option Expression)
        (ord : Option (List (Expression × OrderByType)))
        (off lim : Option Expression),
      plan_select fuel ⟨cat, ctx⟩
          ⟨hd :: tl, none, wheres, gb, hav, ord, off, lim⟩ =
        (.error .panicTodo, ⟨cat, ctx⟩)) := by
  have htok : tokenize "SELECT 1 + 2 * 3;" =
      .ok [.KeyWord .Select, .Number "1", .Add, .Number "2", .Asterisk,
        .Number "3", .Semicolon] := rfl
  exact ⟨by unfold parseSQL; rw [htok]; rfl, rfl,
    fun _ _ _ _ _ _ _ _ _ _ _ => rfl⟩

/-- C5 (counterexample): the claim asserts that plan installs a fresh
PlanContext at entry, making its outcome independent of prior plan calls
on the same Planner.  On the code, planning the same SELECT twice on one
Planner succeeds the first time and fails the second time with a
duplicate-binding Plan error, because plan never resets the context. -/
theorem c5_counterexample :
    (Planner.plan 100 (Planner.new userCatalog) astC5).1 = .ok planC5 ∧
    (Planner.plan 100
        (Planner.plan 100 (Planner.new userCatalog) astC5).2 astC5).1 =
      .error (.err (.Plan "user is exist")) ∧
    (Except.ok planC5 : Except RtErr PlanNode) ≠
      .error (.err (.Plan "user is exist")) :=
  ⟨rfl, rfl, by simp⟩

/-- C5 (amended): plan does not install a fresh PlanContext at entry: the
FROM bindings persist on the planner, so a repeated plan of the same
SELECT fails with a duplicate-binding Plan error, and the fresh-planner
result is recovered only after an explicit reset_ctx call. -/
theorem c5_context_not_reset :
    (Planner.plan 100 (Planner.new userCatalog) astC5).1 = .ok planC5 ∧
    (Planner.plan 100
        (Planner.plan 100 (Planner.new userCatalog) astC5).2 astC5).1 =
      .error (.err (.Plan "user is exist")) ∧
    (Planner.plan 100
        ((Planner.plan 100 (Planner.new userCatalog) astC5).2.reset_ctx)
        astC5).1 = .ok planC5 :=
  ⟨rfl, rfl, rfl⟩

/-- C6 (counterexample): the claim asserts the function name is
upper-cased before being matched against MIN/MAX/COUNT/SUM, under which
min(*) would translate to Agg Min [All]; on the code the match is
case-sensitive and min(*) is rejected with a Plan error. -/
theorem c6_counterexample :
    plan_expression 10 (Planner.new CataLog.default)
        (.Function "min" [.Literal .All]) =
      .error (.err (.Plan
        "min unknown function_name, only support MIN MAX COUNT SUM")) ∧
    plan_expression 10 (Planner.new CataLog.default)
        (.Function "min" [.Literal .All]) ≠
      .ok (.Agg .Min [.Literal .All]) := by
  constructor
  · rfl
  · intro h
    rw [show plan_expression 10 (Planner.new CataLog.default)
        (.Function "min" [.Literal .All]) =
      .error (.err (.Plan
        "min unknown function_name, only support MIN MAX COUNT SUM"))
      from rfl] at h
    cases h

/-- C6 (amended): plan_expression matches the function name of a
Function node case-sensitively (no upper-casing) against the support
list MIN, MAX, COUNT, SUM; a matching name yields the Agg expression of
the corresponding kind with the arguments translated recursively, any
other name yields a Plan error, and the All literal (the * argument) is
preserved by the translation. -/
theorem c6_aggregate_translation :
    (∀ (fuel : Nat) (p : Planner) (args : List Expression)
        (res : List Expr),
      plan_expression_list fuel p args = .ok res →
      plan_expression (fuel + 1) p (.Function "MIN" args) =
          .ok (.Agg .Min res) ∧
      plan_expression (fuel + 1) p (.Function "MAX" args) =
          .ok (.Agg .Max res) ∧
      plan_expression (fuel + 1) p (.Function "COUNT" args) =
          .ok (.Agg .Count res) ∧
      plan_expression (fuel + 1) p (.Function "SUM" args) =
          .ok (.Agg .Sum res)) ∧
    (∀ (fuel : Nat) (p : Planner) (name : String)
        (args : List Expression),
      name ∉ SUPPORT_AGG_NAME →
      plan_expression (fuel + 1) p (.Function name args) =
        .error (.err (.Plan
          s!"{name} unknown function_name, only support MIN MAX COUNT SUM"))) ∧
    (∀ (fuel : Nat) (p : Planner),
      plan_expression (fuel + 1) p (.Literal .All) =
        .ok (.Literal .All)) := by
  refine ⟨?_, ?_, ?_⟩
  · intro fuel p args res h
    refine ⟨?_, ?_, ?_, ?_⟩ <;> simp [plan_expression, h]
  · intro fuel p name args h
    simp only [SUPPORT_AGG_NAME, List.mem_cons, List.not_mem_nil,
      or_false, not_or] at h
    obtain ⟨h1, h2, h3, h4⟩ := h
    simp [plan_expression, h1, h2, h3, h4]
  · intro fuel p
    simp [plan_expression]

/-- C6 (witness): the amended behavior at concrete inputs. -/
theorem c6_witness :
    plan_expression 3 (Planner.new CataLog.default)
        (.Function "MIN" [.Literal .All]) = .ok (.Agg .Min [.Literal .All]) ∧
    plan_expression 3 (Planner.new CataLog.default)
        (.Function "count" [.Literal .All]) =
      .error (.err (.Plan
        "count unknown function_name, only support MIN MAX COUNT SUM")) :=
  ⟨(c6_aggregate_translation.1 2 (Planner.new CataLog.default)
      [.Literal .All] [.Literal .All] rfl).1,
    (c6_aggregate_translation.2.1 2 (Planner.new CataLog.default) "count"
      [.Literal .All] (by decide)).trans rfl⟩

/-- C7: for every join item whose join type is Inner, Left or Right (a
bare JOIN meaning Inner), the parser requires the keyword ON followed by
a predicate expression and returns a Parse error when the ON clause is
absent; an OUTER join consumes no ON clause and gets predicate None.
Concretely, SELECT x FROM a JOIN b; is rejected and
SELECT x FROM a OUTER JOIN b; parses with predicate None. -/
theorem c7_join_on_required :
    (∀ (fuel : Nat) (jt : JoinType) (st : PState),
      jt ≠ .Outer → st.peek_token ≠ .KeyWord .On →
      parse_join_predicate (fuel + 1) jt st =
        .error (.err (.Parse "unexpected keyword"))) ∧
    (∀ (fuel : Nat) (st : PState),
      parse_join_predicate (fuel + 1) .Outer st = .ok (none, st)) ∧
    parseSQL "SELECT x FROM a JOIN b;" =
      .error (.err (.Parse "unexpected keyword")) ∧
    parseSQL "SELECT x FROM a OUTER JOIN b;" =
      .ok (.Select ⟨[(.Field none "x", none)],
        some [.Join (.Table "a" none) (.Table "b" none) .Outer none],
        none, none, none, none, none, none⟩) := by
  have h1 : tokenize "SELECT x FROM a JOIN b;" =
      .ok [.KeyWord .Select, .Ident "x", .KeyWord .From, .Ident "a",
        .KeyWord .Join, .Ident "b", .Semicolon] := rfl
  have h2 : tokenize "SELECT x FROM a OUTER JOIN b;" =
      .ok [.KeyWord .Select, .Ident "x", .KeyWord .From, .Ident "a",
        .KeyWord .Outer, .KeyWord .Join, .Ident "b", .Semicolon] := rfl
  refine ⟨?_, fun _ _ => rfl, by unfold parseSQL; rw [h1]; rfl,
    by unfold parseSQL; rw [h2]; rfl⟩
  intro fuel jt st hj hpk
  cases jt <;> simp_all [parse_join_predicate,
    PState.next_expected_keyword, PState.next_token]

/-- C7 (witness): the general parts at concrete inputs. -/
theorem c7_witness :
    parse_join_predicate 1 .Inner (mkPState []) =
      .error (.err (.Parse "unexpected keyword")) ∧
    parse_join_predicate 1 .Outer (mkPState []) =
      .ok (none, mkPState []) :=
  ⟨c7_join_on_required.1 0 .Inner (mkPState []) (by decide) (by decide),
    c7_join_on_required.2.1 0 (mkPState [])⟩

/-- C8 (code_bug): the claim (and the spec) say next_token always returns
a token and never fails, for every input string.  The scanning loops are
total, but the token text of a number comes from the Rust slice
expression of read_number (lexer.rs line 177), which panics whenever the
number run starts on one of the UTF-8 continuation bytes that
char::is_numeric accepts (0xB2 0xB3 0xB9 0xBC 0xBD 0xBE): a nonzero,
in-buffer position holding such a byte is not a char boundary.  Proved
generally (any buffer and start position whose first non-space byte is
one of the six), and concretely on the valid one-character input
superscript-two (UTF-8 bytes C2 B2): the lead byte C2 matches no rule
and is consumed as the sentinel keyword token, then the next call starts
a number run on the continuation byte B2 and panics. -/
theorem c8_read_number_slice_panic :
    (∀ (s : List Char) (pos : Nat),
      scanEnd s isSpaceChar pos ≠ 0 →
      (charAt s (scanEnd s isSpaceChar pos) = Char.ofNat 0xB2 ∨
       charAt s (scanEnd s isSpaceChar pos) = Char.ofNat 0xB3 ∨
       charAt s (scanEnd s isSpaceChar pos) = Char.ofNat 0xB9 ∨
       charAt s (scanEnd s isSpaceChar pos) = Char.ofNat 0xBC ∨
       charAt s (scanEnd s isSpaceChar pos) = Char.ofNat 0xBD ∨
       charAt s (scanEnd s isSpaceChar pos) = Char.ofNat 0xBE) →
      Lexer.next_token ⟨s, pos⟩ = .error .panicSlice) ∧
    (Lexer.next_token ⟨utf8Sup2, 0⟩ =
        .ok (.KeyWord .UserIdent, ⟨utf8Sup2, 1⟩) ∧
      Lexer.next_token ⟨utf8Sup2, 1⟩ = .error .panicSlice) := by
  refine ⟨?_, rfl, rfl⟩
  intro s pos hp0 hc6
  have hge : 0x80 ≤ (charAt s (scanEnd s isSpaceChar pos)).toNat := by
    rcases hc6 with hc | hc | hc | hc | hc | hc <;> rw [hc] <;> decide
  have hne : ∀ d : Char, d.toNat < 0x80 →
      ¬(charAt s (scanEnd s isSpaceChar pos) = d) := by
    intro d hd he
    rw [he] at hge
    omega
  have hdig : is_digit (charAt s (scanEnd s isSpaceChar pos)) = true := by
    rcases hc6 with hc | hc | hc | hc | hc | hc <;> rw [hc] <;> decide
  have hlet : is_letter (charAt s (scanEnd s isSpaceChar pos)) = false := by
    rcases hc6 with hc | hc | hc | hc | hc | hc <;> rw [hc] <;> decide
  have hplen : scanEnd s isSpaceChar pos ≠ s.length := by
    intro h
    have hstop : charAt s (scanEnd s isSpaceChar pos) = STOP_CHAR := by
      rw [h]
      have hg : s[s.length]? = none := by
        rw [List.getElem?_eq_none_iff]
      simp [charAt, hg]
    exact hne STOP_CHAR (by decide) hstop
  have hb : isCharBoundary s (scanEnd s isSpaceChar pos) = false := by
    have h2 : (!(decide
        (0x80 ≤ (charAt s (scanEnd s isSpaceChar pos)).toNat) &&
        decide
        ((charAt s (scanEnd s isSpaceChar pos)).toNat < 0xC0))) = false := by
      rcases hc6 with hc | hc | hc | hc | hc | hc <;> rw [hc] <;> decide
    simp [isCharBoundary, hp0, hplen, h2]
  simp [Lexer.next_token, Lexer.skip_space,
    hne '=' (by decide), hne '.' (by decide), hne '>' (by decide),
    hne '<' (by decide), hne '+' (by decide), hne '-' (by decide),
    hne '*' (by decide), hne '/' (by decide),
    hne (Char.ofNat 94) (by decide), hne '%' (by decide),
    hne '!' (by decide), hne '?' (by decide), hne '(' (by decide),
    hne ')' (by decide), hne ',' (by decide), hne ';' (by decide),
    hne STOP_CHAR (by decide), hne squoteChar (by decide),
    hne dquoteChar (by decide), hlet, hdig,
    Lexer.read_number_at, rustSliceStr, hb]

/-- C8 (witness): the general panic statement applied to the buffer of
the superscript-two input after its lead byte has been consumed. -/
theorem c8_witness :
    scanEnd utf8Sup2 isSpaceChar 1 ≠ 0 ∧
    charAt utf8Sup2 (scanEnd utf8Sup2 isSpaceChar 1) = Char.ofNat 0xB2 ∧
    Lexer.next_token ⟨utf8Sup2, 1⟩ = .error .panicSlice :=
  ⟨by decide, by decide,
    c8_read_number_slice_panic.1 utf8Sup2 1 (by decide)
      (.inl (by decide))⟩

/-- C9 (counterexample): the claim asserts that every Number-token text
that fails to convert to its target type makes parse_stmt return a Parse
error, including the u64 after BEGIN ... AS OF SYSTEM TIME.  On the code
that conversion uses .ok() and a failing u64 silently becomes
version = None: parsing BEGIN TRANSACTION READ ONLY AS OF SYSTEM TIME
18446744073709551616; (2^64, one past u64::MAX) succeeds. -/
theorem c9_counterexample :
    rustParseU64 "18446744073709551616" = none ∧
    parseSQL
        "BEGIN TRANSACTION READ ONLY AS OF SYSTEM TIME 18446744073709551616;" =
      .ok (.Begin ⟨true, none⟩) := by
  have htok : tokenize
      "BEGIN TRANSACTION READ ONLY AS OF SYSTEM TIME 18446744073709551616;" =
      .ok [.KeyWord .Begin, .KeyWord .Transaction, .KeyWord .Read,
        .KeyWord .Only, .KeyWord .As, .KeyWord .Of, .KeyWord .System,
        .KeyWord .Time, .Number "18446744073709551616", .Semicolon] := rfl
  exact ⟨by decide, by unfold parseSQL; rw [htok]; rfl⟩

/-- C9 (amended): a Number-token text that fails to convert makes the
parser return a Parse error for integer literals (i64), float literals
(f64) and the VARCHAR length (usize); the u64 following BEGIN ... AS OF
SYSTEM TIME is the exception: its conversion result is taken with .ok(),
so a failing text silently yields version = None instead of an error. -/
theorem c9_numeric_literal_errors :
    (∀ (fuel : Nat) (st : PState) (n : String),
      st.pre_token = .Number n → n.data.contains '.' = false →
      rustParseI64 n = none →
      parse_prefix_expr (fuel + 1) st =
        .error (.err (.Parse "invalid digit found in string"))) ∧
    (∀ (fuel : Nat) (st : PState) (n : String),
      st.pre_token = .Number n → n.data.contains '.' = true →
      rustParseF64 n = none →
      parse_prefix_expr (fuel + 1) st =
        .error (.err (.Parse "invalid float literal"))) ∧
    (∀ (fuel : Nat) (pre : Token) (colname lenstr : String)
        (rest : List Token),
      rustParseUsize lenstr = none →
      parse_column (fuel + 1)
          ⟨pre, .Ident colname,
            .KeyWord .VarChar :: .LeftParen :: .Number lenstr :: rest⟩ =
        .error (.err (.Parse "parse err"))) ∧
    (∀ (numstr : String) (rest : List Token),
      parse_transaction_stmt ⟨.KeyWord .Begin, .KeyWord .Transaction,
          .KeyWord .Read :: .KeyWord .Only :: .KeyWord .As ::
          .KeyWord .Of :: .KeyWord .System :: .KeyWord .Time ::
          .Number numstr :: rest⟩ =
        .ok (.Begin ⟨true, rustParseU64 numstr⟩,
          ⟨.Number numstr, rest.headD .Eof, rest.tail⟩)) := by
  refine ⟨?_, ?_, ?_, fun _ _ => rfl⟩
  · intro fuel st n hpre hdot hconv
    have hdm : ('.' : Char) ∉ n.data := by simpa using hdot
    simp [parse_prefix_expr, hpre, hdm, hconv, perr]
  · intro fuel st n hpre hdot hconv
    have hdm : ('.' : Char) ∈ n.data := by simpa using hdot
    simp [parse_prefix_expr, hpre, hdm, hconv, perr]
  · intro fuel pre colname lenstr rest hconv
    simp [parse_column, PState.next_ident, PState.next_token,
      PState.next_expected_token, hconv, perr]

/-- C9 (witness): the amended behavior at concrete number texts. -/
theorem c9_witness :
    parse_prefix_expr 5 (mkPState [.Number "9223372036854775808"]) =
      .error (.err (.Parse "invalid digit found in string")) ∧
    parse_prefix_expr 5 (mkPState [.Number "1.2.3"]) =
      .error (.err (.Parse "invalid float literal")) ∧
    parse_column 5 ⟨.Eof, .Ident "v",
        [.KeyWord .VarChar, .LeftParen,
          .Number "18446744073709551616", .RightParen]⟩ =
      .error (.err (.Parse "parse err")) ∧
    parse_transaction_stmt ⟨.KeyWord .Begin, .KeyWord .Transaction,
        [.KeyWord .Read, .KeyWord .Only, .KeyWord .As, .KeyWord .Of,
          .KeyWord .System, .KeyWord .Time,
          .Number "18446744073709551616", .Semicolon]⟩ =
      .ok (.Begin ⟨true, none⟩,
        ⟨.Number "18446744073709551616", .Semicolon, []⟩) :=
  ⟨c9_numeric_literal_errors.1 4
      (mkPState [.Number "9223372036854775808"]) "9223372036854775808"
      rfl (by decide) (by decide),
    c9_numeric_literal_errors.2.1 4 (mkPState [.Number "1.2.3"]) "1.2.3"
      rfl (by decide) (by decide),
    c9_numeric_literal_errors.2.2.1 4 .Eof "v" "18446744073709551616"
      [.RightParen] (by decide),
    (c9_numeric_literal_errors.2.2.2 "18446744073709551616"
      [.Semicolon]).trans (by
        rw [show rustParseU64 "18446744073709551616" = none from
          by decide]
        rfl)⟩

/-- C10: plan_select builds the plan from the first from-item only: for
any SELECT whose FROM list has a first item f and any further items, the
result (plan and planner state, hence the registered context) is the one
obtained with the FROM list [f] alone, so later from-items contribute
nothing and their columns are not resolvable. -/
theorem c10_first_from_item_only :
    ∀ (fuel : Nat) (cat : CataLog) (ctx : PlanContext) (s : SelectStmt)
      (f : FromItem) (rest : List FromItem),
      Planner.plan fuel ⟨cat, ctx⟩
          (.Select { s with froms := some (f :: rest) }) =
        Planner.plan fuel ⟨cat, ctx⟩
          (.Select { s with froms := some [f] }) :=
  fun _ _ _ _ _ _ => rfl
